import Mathlib

set_option linter.unusedVariables false

/-!
A shallow embedding of the benchmark parsing and analysis pipeline of this
repository (`src/skills/perf_analyzer/parsers.py`,
`src/skills/perf_analyzer/analyzer.py`, and the numeric formatting rules of
`src/skills/tech_report/formatters.py`).

Modelling conventions:
- Python floats are exact rationals extended with the special values NaN and
  plus/minus infinity (`PyVal`); binary64 rounding is idealised away.
- Python exceptions are `Except String`; an uncaught exception is `.error`.
- `statistics.stdev` needs a square root, which is not rational; it is
  threaded as an explicit parameter `psqrt : PyVal → PyVal`.  No claim
  depends on the value of a standard deviation.
- Timestamps are omitted: no modelled operation reads them.
- `metadata` is modelled as a closed record of the three keys the code ever
  reads (`matrix_size`, `matrix_dims`, `runs`), per the data model.
-/

deriving instance DecidableEq for Except

/-! ## Kernel-reducible rational arithmetic

The library arithmetic on `ℚ` is `@[irreducible]`, so closed theorems could
not be settled by `decide`.  These helpers compute the same normalised
rationals through `mkRat`; the bridge lemmas in the theorem section below
identify them with the standard operations. -/

def qAdd (a b : ℚ) : ℚ := mkRat (a.num * b.den + b.num * a.den) (a.den * b.den)

def qSub (a b : ℚ) : ℚ := mkRat (a.num * b.den - b.num * a.den) (a.den * b.den)

def qNeg (a : ℚ) : ℚ := mkRat (-a.num) a.den

def qMul (a b : ℚ) : ℚ := mkRat (a.num * b.num) (a.den * b.den)

def qInv (a : ℚ) : ℚ :=
  if a.num < 0 then mkRat (-(a.den : ℤ)) a.num.natAbs else mkRat (a.den : ℤ) a.num.natAbs

def qDiv (a b : ℚ) : ℚ := qMul a (qInv b)

def qOfNat (n : ℕ) : ℚ := mkRat (n : ℤ) 1

def qOfInt (n : ℤ) : ℚ := mkRat n 1

def qAbs (a : ℚ) : ℚ := if a.num < 0 then qNeg a else a

def qFloor (a : ℚ) : ℤ := a.num / a.den

def qPowNat (a : ℚ) : Nat → ℚ
  | 0 => 1
  | n + 1 => qMul (qPowNat a n) a

def qPowInt (a : ℚ) : ℤ → ℚ
  | .ofNat n => qPowNat a n
  | .negSucc n => qInv (qPowNat a (n + 1))

/-- Model of a Python float value: an exact rational or a special value. -/
inductive PyVal where
  | fin (q : ℚ)
  | nan
  | inf
  | ninf
deriving DecidableEq, Repr

/-- Python `a < b` on floats: any comparison involving NaN is false. -/
def pyLt : PyVal → PyVal → Bool
  | .fin a, .fin b => decide (a < b)
  | .fin _, .inf => true
  | .ninf, .fin _ => true
  | .ninf, .inf => true
  | _, _ => false

/-- Python `a == b` on floats: NaN is not equal to anything, including itself. -/
def pyEq : PyVal → PyVal → Bool
  | .fin a, .fin b => decide (a = b)
  | .inf, .inf => true
  | .ninf, .ninf => true
  | _, _ => false

/-- Python `a <= b` on floats. -/
def pyLe (a b : PyVal) : Bool := pyLt a b || pyEq a b

/-- Python `a != b` on floats. -/
def pyNe (a b : PyVal) : Bool := !(pyEq a b)

/-- Whether a Python float is finite (not NaN and not infinite). -/
def pyIsFinite : PyVal → Bool
  | .fin _ => true
  | _ => false

def pyNeg : PyVal → PyVal
  | .fin q => .fin (qNeg q)
  | .nan => .nan
  | .inf => .ninf
  | .ninf => .inf

def pyAdd : PyVal → PyVal → PyVal
  | .fin a, .fin b => .fin (qAdd a b)
  | .nan, _ => .nan
  | _, .nan => .nan
  | .inf, .ninf => .nan
  | .ninf, .inf => .nan
  | .inf, _ => .inf
  | _, .inf => .inf
  | .ninf, _ => .ninf
  | _, .ninf => .ninf

def pySub (a b : PyVal) : PyVal := pyAdd a (pyNeg b)

def pyMul : PyVal → PyVal → PyVal
  | .fin a, .fin b => .fin (qMul a b)
  | .nan, _ => .nan
  | _, .nan => .nan
  | .inf, .inf => .inf
  | .inf, .ninf => .ninf
  | .ninf, .inf => .ninf
  | .ninf, .ninf => .inf
  | .inf, .fin b => if b = 0 then .nan else if 0 < b then .inf else .ninf
  | .fin a, .inf => if a = 0 then .nan else if 0 < a then .inf else .ninf
  | .ninf, .fin b => if b = 0 then .nan else if 0 < b then .ninf else .inf
  | .fin a, .ninf => if a = 0 then .nan else if 0 < a then .ninf else .inf

/-- Total float division; the divisor-zero case is unreachable through
`pyDiv`, which models the `ZeroDivisionError` Python raises there. -/
def pyDivF : PyVal → PyVal → PyVal
  | .nan, _ => .nan
  | _, .nan => .nan
  | .fin a, .fin b => .fin (qDiv a b)
  | .fin _, .inf => .fin 0
  | .fin _, .ninf => .fin 0
  | .inf, .inf => .nan
  | .inf, .ninf => .nan
  | .ninf, .inf => .nan
  | .ninf, .ninf => .nan
  | .inf, .fin b => if 0 ≤ b then .inf else .ninf
  | .ninf, .fin b => if 0 ≤ b then .ninf else .inf

/-- Python float division: raises `ZeroDivisionError` iff the divisor is 0.0. -/
def pyDiv (a b : PyVal) : Except String PyVal :=
  if b = .fin 0 then .error "ZeroDivisionError: float division by zero"
  else .ok (pyDivF a b)

/-- Python `sum` over floats, starting from 0. -/
def pySum (l : List PyVal) : PyVal := l.foldl pyAdd (.fin 0)

/-- `statistics.mean`: exact sum divided by the length.  Call sites in the
source always guard against the empty list. -/
def pyMean (l : List PyVal) : PyVal := pyDivF (pySum l) (.fin (qOfNat l.length))

/-- Python `min` over a list: keep the current value unless the next
element compares strictly below it. -/
def pyMinList : List PyVal → PyVal
  | [] => .nan
  | x :: xs => xs.foldl (fun acc y => if pyLt y acc then y else acc) x

/-- Python `max` over a list. -/
def pyMaxList : List PyVal → PyVal
  | [] => .nan
  | x :: xs => xs.foldl (fun acc y => if pyLt acc y then y else acc) x

/-- The stable ascending order used to model Python `sorted`, which only
invokes `<`: an element goes before another iff the other is not below it. -/
def pySortLe (a b : PyVal) : Bool := !(pyLt b a)

def pyOrderedInsert (a : PyVal) : List PyVal → List PyVal
  | [] => [a]
  | b :: l => if pySortLe a b then a :: b :: l else b :: pyOrderedInsert a l

/-- Model of Python `sorted` on floats (stable, ascending). -/
def pySorted : List PyVal → List PyVal
  | [] => []
  | a :: l => pyOrderedInsert a (pySorted l)

/-- Exact sample variance (denominator n - 1), as `statistics.stdev`
computes before taking the square root. -/
def pyVariance (l : List PyVal) : PyVal :=
  let m := pyMean l
  pyDivF (pySum (l.map (fun x => pyMul (pySub x m) (pySub x m))))
    (.fin (qSub (qOfNat l.length) 1))

/-- `statistics.stdev`, with the square root supplied as a parameter. -/
def pyStdev (psqrt : PyVal → PyVal) (l : List PyVal) : PyVal := psqrt (pyVariance l)

/-- Round to the nearest integer, ties to even, as Python fixed-point
formatting does. -/
def roundHalfEven (x : ℚ) : ℤ :=
  let f := qFloor x
  let r := qSub x (qOfInt f)
  if r < mkRat 1 2 then f
  else if mkRat 1 2 < r then f + 1
  else if f % 2 = 0 then f else f + 1

def natPadLeft (s : String) (len : Nat) : String :=
  String.mk (List.replicate (len - s.length) '0') ++ s

/-- Python `f-string` fixed-point rendering of a rational with `prec`
decimal places, e.g. `2.0` at precision 1 renders as "2.0". -/
def ratFixedRepr (q : ℚ) (prec : Nat) : String :=
  let sign := if q < 0 then "-" else ""
  let n := (roundHalfEven (qMul (qAbs q) (qPowNat 10 prec))).toNat
  let ip := n / 10 ^ prec
  let fp := n % 10 ^ prec
  sign ++ toString ip ++ (if prec = 0 then "" else "." ++ natPadLeft (toString fp) prec)

/-- Fixed-point rendering extended to the special float values. -/
def pyFixedRepr (v : PyVal) (prec : Nat) : String :=
  match v with
  | .fin q => ratFixedRepr q prec
  | .nan => "nan"
  | .inf => "inf"
  | .ninf => "-inf"

/-- Whether `needle` occurs as a contiguous run of `hay`. -/
def listContains (hay needle : List Char) : Bool :=
  match hay with
  | [] => needle.isEmpty
  | c :: rest => needle.isPrefixOf (c :: rest) || listContains rest needle

/-- Python `needle in hay` on strings. -/
def containsStr (hay needle : String) : Bool := listContains hay.toList needle.toList

/-- Python `str.strip` (whitespace from both ends). -/
def pyStrTrim (s : String) : String :=
  String.mk (((s.toList.dropWhile Char.isWhitespace).reverse.dropWhile Char.isWhitespace).reverse)

/-- Python `str.split(sep)` for a one-character separator: splits at every
occurrence and keeps empty pieces. -/
def splitOnChar (sep : Char) : List Char → List (List Char)
  | [] => [[]]
  | c :: rest =>
    let r := splitOnChar sep rest
    if c == sep then [] :: r
    else (c :: r.headD []) :: r.tail

def pyStrSplit (s : String) (sep : Char) : List String :=
  (splitOnChar sep s.toList).map String.mk

/-- Python `str.lower` (ASCII is all the source needs). -/
def pyStrLower (s : String) : String := String.mk (s.toList.map Char.toLower)

/-- Python `str.startswith`. -/
def pyStartsWith (s p : String) : Bool := p.toList.isPrefixOf s.toList

/-- Python `sep.join`. -/
def strIntercalate (sep : String) : List String → String
  | [] => ""
  | [x] => x
  | x :: y :: rest => x ++ sep ++ strIntercalate sep (y :: rest)

/-- The open metadata mapping, restricted to the keys the code reads. -/
structure Metadata where
  matrix_size : Option Nat
  matrix_dims : Option String
  runs : Option (List PyVal)
deriving DecidableEq, Repr

def Metadata.empty : Metadata := ⟨none, none, none⟩

/-- One named measurement (timestamp omitted, see the header comment). -/
structure BenchmarkResult where
  name : String
  metric_type : String
  value : PyVal
  metadata : Metadata
deriving DecidableEq, Repr

/-- Ordered collection of results plus a name and a config mapping. -/
structure BenchmarkSuite where
  name : String
  results : List BenchmarkResult
  config : Metadata
deriving DecidableEq, Repr

/-- First result whose name matches exactly, as the Python loop returns. -/
def BenchmarkSuite.get_metric (s : BenchmarkSuite) (name : String) : Option BenchmarkResult :=
  s.results.find? (fun r => r.name == name)

/-- All results of a given metric type. -/
def BenchmarkSuite.get_all_metrics (s : BenchmarkSuite) (metric_type : String)
    : List BenchmarkResult :=
  s.results.filter (fun r => r.metric_type == metric_type)

/-! ## Numeric token parsing (Python `float`) -/

def digitsToNat (l : List Char) : Nat :=
  l.foldl (fun acc c => acc * 10 + (c.toNat - 48)) 0

def isDigitDot (c : Char) : Bool := c.isDigit || c == '.'

def takeDigits (cs : List Char) : List Char := cs.takeWhile Char.isDigit

def dropDigits (cs : List Char) : List Char := cs.dropWhile Char.isDigit

def takeDigitsDots (cs : List Char) : List Char := cs.takeWhile isDigitDot

def dropDigitsDots (cs : List Char) : List Char := cs.dropWhile isDigitDot

def dropSpaces (cs : List Char) : List Char := cs.dropWhile Char.isWhitespace

/-- Python `float` on a token drawn from the character class of digits and
dots (what the regexes capture): it succeeds iff the token has at most one
dot and at least one digit, else it raises `ValueError`. -/
def pyFloatOfToken (tok : List Char) : Except String PyVal :=
  if tok.count '.' ≤ 1 && tok.any Char.isDigit then
    let ip := tok.takeWhile (fun c => c != '.')
    let fp := (tok.dropWhile (fun c => c != '.')).drop 1
    .ok (.fin (qAdd (qOfNat (digitsToNat ip)) (qDiv (qOfNat (digitsToNat fp)) (qPowNat 10 fp.length))))
  else .error "ValueError: could not convert string to float"

/-- Python `float` on an arbitrary string: strips whitespace, accepts an
optional sign, the case-insensitive words inf, infinity and nan, or a
decimal literal with optional fraction and exponent.  (Underscore digit
separators, which CPython also accepts, are not modelled; no claim
depends on them.) -/
def pyFloatFull (s : String) : Except String PyVal :=
  let cs := (pyStrTrim s).toList
  let (neg, cs1) : Bool × List Char :=
    match cs with
    | '+' :: rest => (false, rest)
    | '-' :: rest => (true, rest)
    | rest => (false, rest)
  let low := cs1.map Char.toLower
  if low = "inf".toList || low = "infinity".toList then
    .ok (if neg then .ninf else .inf)
  else if low = "nan".toList then .ok .nan
  else
    let d1 := takeDigits cs1
    let r1 := dropDigits cs1
    let (d2, r2) : List Char × List Char :=
      match r1 with
      | '.' :: rest => (takeDigits rest, dropDigits rest)
      | rest => ([], rest)
    if d1.isEmpty && d2.isEmpty then .error "ValueError: could not convert string to float"
    else
      let mant : ℚ := qAdd (qOfNat (digitsToNat d1)) (qDiv (qOfNat (digitsToNat d2)) (qPowNat 10 d2.length))
      let signed : ℚ := if neg then qNeg mant else mant
      match r2 with
      | [] => .ok (.fin signed)
      | e :: rest =>
        if e == 'e' || e == 'E' then
          let (eneg, rest1) : Bool × List Char :=
            match rest with
            | '+' :: r => (false, r)
            | '-' :: r => (true, r)
            | r => (false, r)
          let ed := takeDigits rest1
          if ed.isEmpty || !(dropDigits rest1).isEmpty then
            .error "ValueError: could not convert string to float"
          else
            let ex : ℤ := if eneg then -(digitsToNat ed : ℤ) else (digitsToNat ed : ℤ)
            .ok (.fin (qMul signed (qPowInt 10 ex)))
        else .error "ValueError: could not convert string to float"

/-! ## Line scanners for the CUDA parser regexes

Each Python regex used by the CUDA parser consists of literal runs,
greedy character classes and greedy whitespace, where a class never
matches the character that must follow it; maximal munch therefore agrees
with regex backtracking, and `re.search` is the first position at which
the whole pattern matches. -/

def matchLit : List Char → List Char → Option (List Char)
  | [], cs => some cs
  | _, [] => none
  | p :: ps, c :: cs => if p == c then matchLit ps cs else none

/-- Try a matcher at every position, leftmost first, as `re.search` does. -/
def searchWith {α : Type} (m : List Char → Option α) : List Char → Option α
  | [] => m []
  | c :: cs =>
    match m (c :: cs) with
    | some x => some x
    | none => searchWith m cs

/-- Pattern `Benchmarking (\d+)x(\d+)` at a fixed position; returns the
first group (the source uses it for both dimensions). -/
def matrixMatchAt (cs : List Char) : Option Nat :=
  match matchLit "Benchmarking ".toList cs with
  | none => none
  | some r0 =>
    let d1 := takeDigits r0
    if d1.isEmpty then none
    else
      match matchLit "x".toList (dropDigits r0) with
      | none => none
      | some r1 => if (takeDigits r1).isEmpty then none else some (digitsToNat d1)

/-- Pattern `Best time:\s*([\d.]+)ms` at a fixed position. -/
def bestTimeMatchAt (cs : List Char) : Option (List Char) :=
  match matchLit "Best time:".toList cs with
  | none => none
  | some r0 =>
    let r1 := dropSpaces r0
    let tok := takeDigitsDots r1
    if tok.isEmpty then none
    else
      match matchLit "ms".toList (dropDigitsDots r1) with
      | none => none
      | some _ => some tok

/-- Pattern `CUDA:\s*([\d.]+)\s*GFLOPS\s*\(([\d.]+)\s*TFLOPS\)` at a fixed
position; returns the two captured numeric tokens. -/
def cudaMatchAt (cs : List Char) : Option (List Char × List Char) :=
  match matchLit "CUDA:".toList cs with
  | none => none
  | some r0 =>
    let r1 := dropSpaces r0
    let g1 := takeDigitsDots r1
    if g1.isEmpty then none
    else
      match matchLit "GFLOPS".toList (dropSpaces (dropDigitsDots r1)) with
      | none => none
      | some r3 =>
        match matchLit "(".toList (dropSpaces r3) with
        | none => none
        | some r4 =>
          let g2 := takeDigitsDots r4
          if g2.isEmpty then none
          else
            match matchLit "TFLOPS)".toList (dropSpaces (dropDigitsDots r4)) with
            | none => none
            | some _ => some (g1, g2)

/-- Pattern `CPU:\s*([\d.]+)\s*GFLOPS` at a fixed position. -/
def cpuMatchAt (cs : List Char) : Option (List Char) :=
  match matchLit "CPU:".toList cs with
  | none => none
  | some r0 =>
    let r1 := dropSpaces r0
    let g1 := takeDigitsDots r1
    if g1.isEmpty then none
    else
      match matchLit "GFLOPS".toList (dropSpaces (dropDigitsDots r1)) with
      | none => none
      | some _ => some g1

/-! ## CUDA benchmark parser -/

/-- One line of `CUDABenchmarkParser.parse`: the four regexes are tried in
source order, the running config is threaded, and each emitted result
snapshots the current config. -/
def CUDABenchmarkParser.parseLine (st : Metadata × List BenchmarkResult) (line : String)
    : Except String (Metadata × List BenchmarkResult) :=
  let l := (pyStrTrim line).toList
  let cfg := st.1
  let acc := st.2
  match searchWith matrixMatchAt l with
  | some size =>
    .ok ({ cfg with matrix_size := some size,
                    matrix_dims := some (toString size ++ "x" ++ toString size) }, acc)
  | none =>
  match searchWith bestTimeMatchAt l with
  | some tok =>
    match pyFloatOfToken tok with
    | .error e => .error e
    | .ok time_ms =>
      .ok (cfg, acc ++ [{ name := "Execution Time (" ++ cfg.matrix_dims.getD "unknown" ++ ")",
                          metric_type := "ms", value := time_ms, metadata := cfg }])
  | none =>
  match searchWith cudaMatchAt l with
  | some (g1, g2) =>
    match pyFloatOfToken g1, pyFloatOfToken g2 with
    | .error e, _ => .error e
    | _, .error e => .error e
    | .ok gflops, .ok tflops =>
      .ok (cfg,
        acc ++ [{ name := "CUDA Performance (" ++ cfg.matrix_dims.getD "unknown" ++ ")",
                  metric_type := "GFLOPS", value := gflops, metadata := cfg }]
            ++ [{ name := "CUDA Performance (" ++ cfg.matrix_dims.getD "unknown" ++ ")",
                  metric_type := "TFLOPS", value := tflops, metadata := cfg }])
  | none =>
  match searchWith cpuMatchAt l with
  | some g1 =>
    match pyFloatOfToken g1 with
    | .error e => .error e
    | .ok gflops =>
      .ok (cfg, acc ++ [{ name := "CPU Performance (" ++ cfg.matrix_dims.getD "unknown" ++ ")",
                          metric_type := "GFLOPS", value := gflops, metadata := cfg }])
  | none => .ok (cfg, acc)

def CUDABenchmarkParser.parse (text : String) : Except String BenchmarkSuite := do
  let lines := pyStrSplit (pyStrTrim text) '\n'
  let st ← lines.foldlM CUDABenchmarkParser.parseLine (Metadata.empty, [])
  pure { name := "CUDA Benchmark Suite", results := st.2, config := st.1 }

/-! ## CSV parser -/

def GenericBenchmarkParser.parse_csv (text : String) : BenchmarkSuite :=
  let lines := pyStrSplit (pyStrTrim text) '\n'
  if lines.length < 2 then { name := "CSV Benchmark", results := [], config := Metadata.empty }
  else
    let headers := (pyStrSplit (lines.headD "") ',').map pyStrTrim
    let results := lines.tail.foldl (fun acc line =>
      if pyStrTrim line = "" then acc
      else
        let values := (pyStrSplit line ',').map pyStrTrim
        if values.length ≠ headers.length then acc
        else
          let name := values.headD ""
          acc ++ ((headers.tail.zip values.tail).filterMap (fun hc =>
            match pyFloatFull hc.2 with
            | .ok v => some { name := name, metric_type := hc.1, value := v,
                              metadata := Metadata.empty }
            | .error _ => none))) []
    { name := "CSV Benchmark Suite", results := results, config := Metadata.empty }

/-! ## JSON parser

A fueled model of `json.loads` with the CPython defaults: strict strings,
no leading zeros, and the non-standard literals NaN, Infinity and
-Infinity accepted as numbers. -/

inductive Json where
  | null
  | bool (b : Bool)
  | num (v : PyVal)
  | str (s : String)
  | arr (elems : List Json)
  | obj (fields : List (String × Json))

def jsonWs (c : Char) : Bool := c == ' ' || c == '\t' || c == '\n' || c == '\r'

def hexVal (c : Char) : Option Nat :=
  if c.isDigit then some (c.toNat - 48)
  else if 'a' ≤ c && c ≤ 'f' then some (c.toNat - 87)
  else if 'A' ≤ c && c ≤ 'F' then some (c.toNat - 55)
  else none

/-- JSON string body after the opening quote; returns the decoded
characters and the remaining input past the closing quote. -/
def parseJStr : Nat → List Char → Option (List Char × List Char)
  | 0, _ => none
  | fuel + 1, cs =>
    match cs with
    | [] => none
    | '"' :: rest => some ([], rest)
    | '\\' :: e :: rest =>
      let cont (c : Char) (r : List Char) : Option (List Char × List Char) :=
        match parseJStr fuel r with
        | some (body, r2) => some (c :: body, r2)
        | none => none
      match e with
      | '"' => cont '"' rest
      | '\\' => cont '\\' rest
      | '/' => cont '/' rest
      | 'b' => cont (Char.ofNat 8) rest
      | 'f' => cont (Char.ofNat 12) rest
      | 'n' => cont '\n' rest
      | 'r' => cont '\r' rest
      | 't' => cont '\t' rest
      | 'u' =>
        match rest with
        | a :: b :: c :: d :: r2 =>
          match hexVal a, hexVal b, hexVal c, hexVal d with
          | some x, some y, some z, some w =>
            cont (Char.ofNat (((x * 16 + y) * 16 + z) * 16 + w)) r2
          | _, _, _, _ => none
        | _ => none
      | _ => none
    | c :: rest =>
      if c.toNat < 32 then none
      else
        match parseJStr fuel rest with
        | some (body, r2) => some (c :: body, r2)
        | none => none

/-- JSON number literal (without the NaN/Infinity words). -/
def parseJNum (cs : List Char) : Option (PyVal × List Char) :=
  let (neg, cs1) : Bool × List Char :=
    match cs with
    | '-' :: rest => (true, rest)
    | rest => (false, rest)
  match cs1 with
  | [] => none
  | c :: cs2 =>
    if !c.isDigit then none
    else if c == '0' && (match cs2 with | d :: _ => d.isDigit | [] => false) then none
    else
      let d1 := takeDigits cs1
      let r1 := dropDigits cs1
      let (d2, r2, okFrac) : List Char × List Char × Bool :=
        match r1 with
        | '.' :: rest => (takeDigits rest, dropDigits rest, !(takeDigits rest).isEmpty)
        | rest => ([], rest, true)
      if !okFrac then none
      else
        let mant : ℚ := qAdd (qOfNat (digitsToNat d1)) (qDiv (qOfNat (digitsToNat d2)) (qPowNat 10 d2.length))
        let signed : ℚ := if neg then qNeg mant else mant
        match r2 with
        | 'e' :: rest | 'E' :: rest =>
          let (eneg, rr) : Bool × List Char :=
            match rest with
            | '+' :: r => (false, r)
            | '-' :: r => (true, r)
            | r => (false, r)
          let ed := takeDigits rr
          if ed.isEmpty then none
          else
            let ex : ℤ := if eneg then -(digitsToNat ed : ℤ) else (digitsToNat ed : ℤ)
            some (.fin (qMul signed (qPowInt 10 ex)), dropDigits rr)
        | _ => some (.fin signed, r2)

mutual

def parseJVal : Nat → List Char → Option (Json × List Char)
  | 0, _ => none
  | fuel + 1, cs0 =>
    let cs := cs0.dropWhile jsonWs
    match cs with
    | [] => none
    | '"' :: rest =>
      match parseJStr (rest.length + 1) rest with
      | some (body, r) => some (.str (String.mk body), r)
      | none => none
    | '[' :: rest =>
      match rest.dropWhile jsonWs with
      | ']' :: r1 => some (.arr [], r1)
      | _ =>
        match parseJItems fuel rest with
        | some (items, r1) => some (.arr items, r1)
        | none => none
    | '\x7b' :: rest =>
      match rest.dropWhile jsonWs with
      | '\x7d' :: r1 => some (.obj [], r1)
      | _ =>
        match parseJFields fuel rest with
        | some (fs, r1) => some (.obj fs, r1)
        | none => none
    | 't' :: _ =>
      match matchLit "true".toList cs with
      | some r => some (.bool true, r)
      | none => none
    | 'f' :: _ =>
      match matchLit "false".toList cs with
      | some r => some (.bool false, r)
      | none => none
    | 'n' :: _ =>
      match matchLit "null".toList cs with
      | some r => some (.null, r)
      | none => none
    | 'N' :: _ =>
      match matchLit "NaN".toList cs with
      | some r => some (.num .nan, r)
      | none => none
    | 'I' :: _ =>
      match matchLit "Infinity".toList cs with
      | some r => some (.num .inf, r)
      | none => none
    | '-' :: 'I' :: _ =>
      match matchLit "-Infinity".toList cs with
      | some r => some (.num .ninf, r)
      | none => none
    | _ =>
      match parseJNum cs with
      | some (v, r) => some (.num v, r)
      | none => none

def parseJItems : Nat → List Char → Option (List Json × List Char)
  | 0, _ => none
  | fuel + 1, cs =>
    match parseJVal fuel cs with
    | none => none
    | some (v, r) =>
      match r.dropWhile jsonWs with
      | ',' :: r2 =>
        match parseJItems fuel r2 with
        | some (vs, r3) => some (v :: vs, r3)
        | none => none
      | ']' :: r2 => some ([v], r2)
      | _ => none

def parseJFields : Nat → List Char → Option (List (String × Json) × List Char)
  | 0, _ => none
  | fuel + 1, cs0 =>
    match cs0.dropWhile jsonWs with
    | '"' :: rest =>
      match parseJStr (rest.length + 1) rest with
      | none => none
      | some (key, r1) =>
        match r1.dropWhile jsonWs with
        | ':' :: r2 =>
          match parseJVal fuel r2 with
          | none => none
          | some (v, r3) =>
            match r3.dropWhile jsonWs with
            | ',' :: r4 =>
              match parseJFields fuel r4 with
              | some (fs, r5) => some ((String.mk key, v) :: fs, r5)
              | none => none
            | '\x7d' :: r4 => some ([(String.mk key, v)], r4)
            | _ => none
        | _ => none
    | _ => none

end

/-- `json.loads`: the whole input must be consumed up to trailing
whitespace. -/
def jsonLoads (s : String) : Option Json :=
  let cs := s.toList
  match parseJVal (cs.length + 1) cs with
  | some (j, r) => if (r.dropWhile jsonWs).isEmpty then some j else none
  | none => none

/-- Building a Python dict from parsed key/value pairs: a repeated key
keeps its first position but takes its last value. -/
def dictUpd (acc : List (String × Json)) (kv : String × Json) : List (String × Json) :=
  if acc.any (fun p => p.1 == kv.1) then
    acc.map (fun p => if p.1 == kv.1 then (p.1, kv.2) else p)
  else acc ++ [kv]

def dictItems (l : List (String × Json)) : List (String × Json) := l.foldl dictUpd []

def dictGet (l : List (String × Json)) (k : String) : Option Json :=
  (l.find? (fun p => p.1 == k)).map (fun p => p.2)

/-- `isinstance(value, (int, float))`: note that Python booleans are ints. -/
def Json.isNumeric : Json → Bool
  | .num _ => true
  | .bool _ => true
  | _ => false

/-- `float(value)` for a JSON value that passed `isNumeric`. -/
def Json.numVal : Json → PyVal
  | .num v => v
  | .bool b => .fin (if b then 1 else 0)
  | _ => .fin 0

/-- Python stores whatever object sits under the `name` key as the result
name; since our result names are strings, non-string names are rendered.
No modelled claim exercises a non-string name. -/
def jsonNameStr : Json → String
  | .str s => s
  | .num v => pyFixedRepr v 1
  | .bool b => if b then "True" else "False"
  | .null => "None"
  | _ => "Unknown"

/-- One element of a JSON array of result objects. -/
def itemResults (item : Json) : List BenchmarkResult :=
  match item with
  | .obj fields0 =>
    let fields := dictItems fields0
    let name :=
      match dictGet fields "name" with
      | some v => jsonNameStr v
      | none => "Unknown"
    fields.filterMap (fun kv =>
      if kv.1 != "name" && kv.2.isNumeric then
        some { name := name, metric_type := kv.1, value := kv.2.numVal,
               metadata := Metadata.empty }
      else none)
  | _ => []

def GenericBenchmarkParser.parse_json (text : String) : BenchmarkSuite :=
  match jsonLoads text with
  | none => { name := "JSON Benchmark", results := [], config := Metadata.empty }
  | some data =>
    let results :=
      match data with
      | .arr items => items.foldl (fun acc it => acc ++ itemResults it) []
      | .obj fields0 =>
        (dictItems fields0).foldl (fun acc nm =>
          match nm.2 with
          | .obj mf0 =>
            acc ++ (dictItems mf0).filterMap (fun mv =>
              if mv.2.isNumeric then
                some { name := nm.1, metric_type := mv.1, value := mv.2.numVal,
                       metadata := Metadata.empty }
              else none)
          | m =>
            if m.isNumeric then
              acc ++ [{ name := nm.1, metric_type := "value", value := m.numVal,
                        metadata := Metadata.empty }]
            else acc) []
      | _ => []
    { name := "JSON Benchmark Suite", results := results, config := Metadata.empty }

/-! ## Key-value parser -/

/-- `line.split(sep, 1)`: the part before the first separator and the part
after it (the caller checks the separator occurs). -/
def splitFirstAt (sep : Char) : List Char → List Char × List Char
  | [] => ([], [])
  | c :: rest =>
    if c == sep then ([], rest)
    else
      let p := splitFirstAt sep rest
      (c :: p.1, p.2)

def isUnitChar (c : Char) : Bool := c.isAlpha || c == '/'

/-- The regex `([\d.]+)\s*([A-Za-z/]+)?` searched in the value string: the
match starts at the first digit-or-dot character. -/
def kvFindNum : List Char → Option (List Char × Option (List Char))
  | [] => none
  | c :: rest =>
    if isDigitDot c then
      let g1 := takeDigitsDots (c :: rest)
      let r1 := dropSpaces (dropDigitsDots (c :: rest))
      let u := r1.takeWhile isUnitChar
      some (g1, if u.isEmpty then none else some u)
    else kvFindNum rest

def GenericBenchmarkParser.parse_key_value (text : String) : Except String BenchmarkSuite := do
  let lines := pyStrSplit (pyStrTrim text) '\n'
  let results ← lines.foldlM (fun acc line => do
    let line := pyStrTrim line
    if line = "" then pure acc
    else
      let kv : Option (String × String) :=
        if containsStr line ":" then
          let p := splitFirstAt ':' line.toList
          some (pyStrTrim (String.mk p.1), pyStrTrim (String.mk p.2))
        else if containsStr line "=" then
          let p := splitFirstAt '=' line.toList
          some (pyStrTrim (String.mk p.1), pyStrTrim (String.mk p.2))
        else none
      match kv with
      | none => pure acc
      | some (key, value_str) =>
        match kvFindNum value_str.toList with
        | none => pure acc
        | some (g1, unitTok) => do
          let v ← pyFloatOfToken g1
          pure (acc ++ [{ name := key,
                          metric_type := (unitTok.map String.mk).getD "value",
                          value := v, metadata := Metadata.empty }])) []
  pure { name := "Key-Value Benchmark Suite", results := results, config := Metadata.empty }

/-! ## Dispatcher -/

/-- The auto-detection chain of `BenchmarkParserFactory.parse`: JSON by
leading brace or bracket and a successful load, then CUDA by substring,
then CSV by a comma-bearing header line, else key-value. -/
def autoDetect (text : String) : Except String BenchmarkSuite :=
  if (pyStartsWith text "\x7b" || pyStartsWith text "[") && (jsonLoads text).isSome then
    .ok (GenericBenchmarkParser.parse_json text)
  else if containsStr text "CUDA" || containsStr text "GFLOPS" || containsStr text "TFLOPS" then
    CUDABenchmarkParser.parse text
  else
    let lines := pyStrSplit text '\n'
    if decide (2 ≤ lines.length) && containsStr (lines.headD "") ","
        && decide (1 < (pyStrSplit (lines.headD "") ',').length) then
      .ok (GenericBenchmarkParser.parse_csv text)
    else GenericBenchmarkParser.parse_key_value text

def BenchmarkParserFactory.parse (text : String) (format_hint : Option String)
    : Except String BenchmarkSuite :=
  if pyStrTrim text = "" then
    .ok { name := "Empty Benchmark", results := [], config := Metadata.empty }
  else
    let text := pyStrTrim text
    match format_hint with
    | some h0 =>
      let h := pyStrLower h0
      if h = "cuda" || h = "gpu" then CUDABenchmarkParser.parse text
      else if h = "csv" then .ok (GenericBenchmarkParser.parse_csv text)
      else if h = "json" then .ok (GenericBenchmarkParser.parse_json text)
      else if h = "kv" || h = "keyvalue" then GenericBenchmarkParser.parse_key_value text
      else autoDetect text
    | none => autoDetect text

/-- Convenience entry point `parse_benchmark`. -/
def parse_benchmark (text : String) (format_hint : Option String)
    : Except String BenchmarkSuite :=
  BenchmarkParserFactory.parse text format_hint

/-! ## Statistical analyzer -/

structure PerformanceMetrics where
  mean : PyVal
  median : PyVal
  std_dev : PyVal
  min_val : PyVal
  max_val : PyVal
  percentile_25 : PyVal
  percentile_75 : PyVal
  percentile_95 : PyVal
  coefficient_of_variation : PyVal
deriving DecidableEq, Repr

structure ComparisonResult where
  baseline_name : String
  comparison_name : String
  metric_type : String
  baseline_value : PyVal
  comparison_value : PyVal
  absolute_diff : PyVal
  percent_change : PyVal
  speedup : PyVal
  is_improvement : Bool
  is_regression : Bool
deriving DecidableEq, Repr

structure Bottleneck where
  component : String
  severity : String
  description : String
  impact : PyVal
  recommendations : List String
deriving DecidableEq, Repr

structure AnalysisReport where
  suite_name : String
  metrics : List (String × PerformanceMetrics)
  comparisons : List ComparisonResult
  bottlenecks : List Bottleneck
  recommendations : List String
  summary : String
  raw_results : List BenchmarkResult
deriving DecidableEq, Repr

/-- `statistics.median`: middle of the sorted list, or the mean of the two
middle elements for even length. -/
def pyMedian (values : List PyVal) : PyVal :=
  let s := pySorted values
  let n := s.length
  if n % 2 = 1 then s.getD (n / 2) (.fin 0)
  else pyDivF (pyAdd (s.getD (n / 2 - 1) (.fin 0)) (s.getD (n / 2) (.fin 0))) (.fin 2)

/-- `PerformanceAnalyzer.calculate_metrics`.  The percentile indices model
`int(n * 0.25)` and friends as exact floors (`0.25` and `0.75` are exact
in binary64; for `0.95` CPython can land one index lower when `19n/20` is
an integer, a divergence no claim exercises).  The list indexings are in
bounds for every non-empty list, so `getD` never takes its default. -/
def PerformanceAnalyzer.calculate_metrics (psqrt : PyVal → PyVal) (values : List PyVal)
    : Except String PerformanceMetrics :=
  if values = [] then .error "Cannot calculate metrics for empty list"
  else
    let sorted_vals := pySorted values
    let n := values.length
    let mean_val := pyMean values
    let median_val := pyMedian values
    let std_dev_val := if 1 < n then pyStdev psqrt values else .fin 0
    let p25_idx := n * 25 / 100
    let p75_idx := n * 75 / 100
    let p95_idx := n * 95 / 100
    do
      let cv ← if pyNe mean_val (.fin 0) then pyDiv std_dev_val mean_val else pure (.fin 0)
      pure { mean := mean_val, median := median_val, std_dev := std_dev_val,
             min_val := pyMinList values, max_val := pyMaxList values,
             percentile_25 := sorted_vals.getD p25_idx (.fin 0),
             percentile_75 := sorted_vals.getD p75_idx (.fin 0),
             percentile_95 := sorted_vals.getD p95_idx (.fin 0),
             coefficient_of_variation := cv }

def timing_metric_names : List String := ["ms", "seconds", "s", "time"]

/-- Timing classification: the lowercased metric type contains one of the
timing substrings. -/
def isTimingMetric (metric_type : String) : Bool :=
  timing_metric_names.any (fun tm => containsStr (pyStrLower metric_type) tm)

def PerformanceAnalyzer.compare_results (baseline comparison : BenchmarkResult)
    : Except String ComparisonResult :=
  if baseline.metric_type ≠ comparison.metric_type then
    .error "Cannot compare results with different metric types"
  else do
    let absolute_diff := pySub comparison.value baseline.value
    let percent_change ←
      if pyNe baseline.value (.fin 0) then do
        let d ← pyDiv absolute_diff baseline.value
        pure (pyMul d (.fin 100))
      else pure (.fin 0)
    if isTimingMetric baseline.metric_type then do
      let speedup ←
        if pyNe comparison.value (.fin 0) then pyDiv baseline.value comparison.value
        else pure (.fin 0)
      pure { baseline_name := baseline.name, comparison_name := comparison.name,
             metric_type := baseline.metric_type,
             baseline_value := baseline.value, comparison_value := comparison.value,
             absolute_diff := absolute_diff, percent_change := percent_change,
             speedup := speedup,
             is_improvement := pyLt comparison.value baseline.value,
             is_regression := pyLt (pyMul baseline.value (.fin (mkRat 21 20))) comparison.value }
    else do
      let speedup ←
        if pyNe baseline.value (.fin 0) then pyDiv comparison.value baseline.value
        else pure (.fin 0)
      pure { baseline_name := baseline.name, comparison_name := comparison.name,
             metric_type := baseline.metric_type,
             baseline_value := baseline.value, comparison_value := comparison.value,
             absolute_diff := absolute_diff, percent_change := percent_change,
             speedup := speedup,
             is_improvement := pyLt baseline.value comparison.value,
             is_regression := pyLt comparison.value (pyMul baseline.value (.fin (mkRat 19 20))) }

/-- Per-pair CUDA/CPU speedups, skipping pairs with non-positive CPU value. -/
def gpuSpeedups : List (BenchmarkResult × BenchmarkResult) → Except String (List PyVal)
  | [] => pure []
  | p :: rest =>
    if pyLt (.fin 0) p.2.value then do
      let s ← pyDiv p.1.value p.2.value
      let tl ← gpuSpeedups rest
      pure (s :: tl)
    else gpuSpeedups rest

def gpu_recommendation_texts : List String :=
  ["Check for memory transfer bottlenecks between host and device",
   "Verify kernel launch configurations (grid/block dimensions)",
   "Profile memory access patterns - ensure coalesced access",
   "Consider using shared memory for frequently accessed data",
   "Check for thread divergence in kernel code"]

/-- First bottleneck check: CUDA vs CPU GFLOPS results paired by position. -/
def gpuUtilizationCheck (suite : BenchmarkSuite) : Except String (List Bottleneck) := do
  let cuda_results := suite.results.filter
    (fun r => containsStr r.name "CUDA" && r.metric_type == "GFLOPS")
  let cpu_results := suite.results.filter
    (fun r => containsStr r.name "CPU" && r.metric_type == "GFLOPS")
  if !cuda_results.isEmpty && !cpu_results.isEmpty then do
    let speedups ← gpuSpeedups (cuda_results.zip cpu_results)
    if !speedups.isEmpty then
      let avg_speedup := pyMean speedups
      if pyLt avg_speedup (.fin 10) then
        pure [{ component := "GPU Utilization",
                severity := if pyLt avg_speedup (.fin 5) then "critical" else "high",
                description := "GPU speedup is only " ++ pyFixedRepr avg_speedup 1
                  ++ "x over CPU (expected 10-100x)",
                impact := pySub (.fin 100) (pyMul (pyDivF avg_speedup (.fin 10)) (.fin 100)),
                recommendations := gpu_recommendation_texts }]
      else pure []
    else pure []
  else pure []

def variance_recommendation_texts : List String :=
  ["Check for thermal throttling",
   "Verify no background processes interfering",
   "Consider running more warmup iterations",
   "Check for GPU frequency scaling"]

/-- One result of the timing-variance loop: a truthy `runs` list of at
least two samples whose coefficient of variation exceeds 0.1 appends a
medium bottleneck. -/
def timingVarianceStep (psqrt : PyVal → PyVal) (acc : List Bottleneck)
    (result : BenchmarkResult) : Except String (List Bottleneck) :=
  match result.metadata.runs with
  | none => pure acc
  | some times =>
    if times.isEmpty then pure acc
    else if 1 < times.length then do
      let cv ← pyDiv (pyStdev psqrt times) (pyMean times)
      if pyLt (.fin (mkRat 1 10)) cv then
        pure (acc ++ [{ component := result.name, severity := "medium",
                        description := "High timing variance (CV: "
                          ++ pyFixedRepr (pyMul cv (.fin 100)) 1 ++ "%)",
                        impact := pyMul cv (.fin 100),
                        recommendations := variance_recommendation_texts }])
      else pure acc
    else pure acc

/-- Second bottleneck check: timing variance over `metadata.runs`. -/
def timingVarianceCheck (psqrt : PyVal → PyVal) (suite : BenchmarkSuite)
    : Except String (List Bottleneck) :=
  (suite.results.filter (fun r => r.metric_type == "ms")).foldlM (timingVarianceStep psqrt) []

def bandwidth_recommendation_texts : List String :=
  ["Optimize memory access patterns for coalescing",
   "Reduce memory traffic with shared memory",
   "Check for unnecessary data transfers",
   "Consider data layout transformations (AoS vs SoA)"]

/-- Third bottleneck check applied to a single bandwidth result. -/
def bandwidthCheckOne (result : BenchmarkResult) : List Bottleneck :=
  if pyLt result.value (.fin 500) then
    let efficiency := pyMul (pyDivF result.value (.fin 900)) (.fin 100)
    if pyLt efficiency (.fin 60) then
      [{ component := "Memory Bandwidth",
         severity := if pyLt efficiency (.fin 40) then "high" else "medium",
         description := "Memory bandwidth at " ++ pyFixedRepr efficiency 1
           ++ "% of theoretical peak",
         impact := pySub (.fin 100) efficiency,
         recommendations := bandwidth_recommendation_texts }]
    else []
  else []

def memoryBandwidthCheck (suite : BenchmarkSuite) : List Bottleneck :=
  (suite.results.filter (fun r => containsStr r.metric_type "GB/s")).foldl
    (fun acc r => acc ++ bandwidthCheckOne r) []

/-- Stable descending sort by impact, as `sorted(key=..., reverse=True)`. -/
def impactSortInsert (a : Bottleneck) : List Bottleneck → List Bottleneck
  | [] => [a]
  | b :: l => if !(pyLt a.impact b.impact) then a :: b :: l else b :: impactSortInsert a l

def impactSort : List Bottleneck → List Bottleneck
  | [] => []
  | a :: l => impactSortInsert a (impactSort l)

def PerformanceAnalyzer.identify_bottlenecks (psqrt : PyVal → PyVal) (suite : BenchmarkSuite)
    : Except String (List Bottleneck) := do
  let b1 ← gpuUtilizationCheck suite
  let b2 ← timingVarianceCheck psqrt suite
  let b3 := memoryBandwidthCheck suite
  pure (impactSort (b1 ++ b2 ++ b3))

def PerformanceAnalyzer.generate_recommendations (suite : BenchmarkSuite)
    (bottlenecks : List Bottleneck) : List String :=
  let cuda_results := suite.results.filter
    (fun r => containsStr r.name "CUDA" && r.metric_type == "TFLOPS")
  let recs1 : List String :=
    if !cuda_results.isEmpty then
      let max_tflops := pyMaxList (cuda_results.map (fun r => r.value))
      if pyLt max_tflops (.fin 15) then
        ["Performance is below expected levels for modern GPUs. Consider profiling with nsight compute to identify specific bottlenecks."]
      else []
    else []
  let critical_bottlenecks := bottlenecks.filter (fun b => b.severity == "critical")
  let recs2 : List String :=
    if !bottlenecks.isEmpty && !critical_bottlenecks.isEmpty then
      recs1 ++ ["Critical issue: "
        ++ (critical_bottlenecks.headD ⟨"", "", "", .fin 0, []⟩).description
        ++ ". This should be the top optimization priority."]
    else recs1
  let matrix_sizes := suite.results.filterMap (fun r => r.metadata.matrix_size)
  if !matrix_sizes.isEmpty then
    let max_size := matrix_sizes.foldl max 0
    if 8192 ≤ max_size then
      recs2 ++ ["Large matrix sizes detected. Consider tiling strategies or hierarchical algorithms for better cache utilization."]
    else recs2
  else recs2

/-- Structural worker for `firstDedup`: the fuel bounds the number of
distinct elements, so the zero-fuel case is never reached when the fuel
starts at the list length. -/
def firstDedupAux : Nat → List String → List String
  | _, [] => []
  | 0, _ :: _ => []
  | fuel + 1, x :: xs => x :: firstDedupAux fuel (xs.filter (fun y => y != x))

/-- Result metric types in first-occurrence order, one entry each,
modelling the `set` comprehension in `analyze`. -/
def firstDedup (l : List String) : List String := firstDedupAux l.length l

/-- Per-metric-type statistics, as the first loop of `analyze`. -/
def metricsForTypes (psqrt : PyVal → PyVal) (suite : BenchmarkSuite)
    : List String → Except String (List (String × PerformanceMetrics))
  | [] => pure []
  | mt :: rest => do
    let values := (suite.results.filter (fun r => r.metric_type == mt)).map (fun r => r.value)
    if values.isEmpty then metricsForTypes psqrt suite rest
    else do
      let m ← PerformanceAnalyzer.calculate_metrics psqrt values
      let tl ← metricsForTypes psqrt suite rest
      pure ((mt, m) :: tl)

/-- Comparison loop of `analyze` against the most recent historical suite. -/
def buildComparisons (prev_suite : BenchmarkSuite)
    : List BenchmarkResult → Except String (List ComparisonResult)
  | [] => pure []
  | result :: rest =>
    match prev_suite.get_metric result.name with
    | some prev_result =>
      if prev_result.metric_type = result.metric_type then do
        let c ← PerformanceAnalyzer.compare_results prev_result result
        let tl ← buildComparisons prev_suite rest
        pure (c :: tl)
      else buildComparisons prev_suite rest
    | none => buildComparisons prev_suite rest

/-- The summary sentence concatenation of `analyze`. -/
def buildSummary (suite : BenchmarkSuite) (bottlenecks : List Bottleneck)
    (comparisons : List ComparisonResult) : String :=
  let parts1 : List String :=
    if !suite.results.isEmpty then
      ["Analyzed " ++ toString suite.results.length ++ " benchmark results."]
    else []
  let critical_count := (bottlenecks.filter (fun b => b.severity == "critical")).length
  let high_count := (bottlenecks.filter (fun b => b.severity == "high")).length
  let parts2 :=
    if !bottlenecks.isEmpty && critical_count != 0 then
      parts1 ++ ["Found " ++ toString critical_count ++ " critical bottleneck(s)."]
    else parts1
  let parts3 :=
    if !bottlenecks.isEmpty && high_count != 0 then
      parts2 ++ ["Found " ++ toString high_count ++ " high-priority issue(s)."]
    else parts2
  let improvements := (comparisons.filter (fun c => c.is_improvement)).length
  let regressions := (comparisons.filter (fun c => c.is_regression)).length
  let parts4 :=
    if !comparisons.isEmpty && improvements != 0 then
      parts3 ++ [toString improvements ++ " metric(s) improved vs previous run."]
    else parts3
  let parts5 :=
    if !comparisons.isEmpty && regressions != 0 then
      parts4 ++ ["⚠️  " ++ toString regressions ++ " metric(s) regressed vs previous run."]
    else parts4
  if parts5.isEmpty then "Benchmark analysis complete." else strIntercalate " " parts5

/-- `PerformanceAnalyzer.analyze`, with the mutable history modelled by
explicit state passing: it consumes the history list and returns the
report together with the history extended by the analyzed suite (the
append happens after the comparisons are computed). -/
def PerformanceAnalyzer.analyze (psqrt : PyVal → PyVal) (history : List BenchmarkSuite)
    (suite : BenchmarkSuite) : Except String (AnalysisReport × List BenchmarkSuite) := do
  let metrics_by_type ← metricsForTypes psqrt suite
    (firstDedup (suite.results.map (fun r => r.metric_type)))
  let bottlenecks ← PerformanceAnalyzer.identify_bottlenecks psqrt suite
  let recommendations := PerformanceAnalyzer.generate_recommendations suite bottlenecks
  let comparisons ←
    match history.getLast? with
    | some prev_suite => buildComparisons prev_suite suite.results
    | none => pure []
  let summary := buildSummary suite bottlenecks comparisons
  pure ({ suite_name := suite.name, metrics := metrics_by_type, comparisons := comparisons,
          bottlenecks := bottlenecks, recommendations := recommendations, summary := summary,
          raw_results := suite.results }, history ++ [suite])

/-! ## Number formatting (`MetricFormatter.format_number`) -/

def commaRev : List Char → List Char
  | a :: b :: c :: d :: rest => a :: b :: c :: ',' :: commaRev (d :: rest)
  | l => l

/-- Thousands grouping of a digit string, as the `,` format flag. -/
def commaGroup (s : String) : String := String.mk ((commaRev s.toList.reverse).reverse)

/-- Python `f"{value:,.{precision}f}"`. -/
def ratFixedCommaRepr (q : ℚ) (prec : Nat) : String :=
  let sign := if q < 0 then "-" else ""
  let n := (roundHalfEven (qMul (qAbs q) (qPowNat 10 prec))).toNat
  let ip := n / 10 ^ prec
  let fp := n % 10 ^ prec
  sign ++ commaGroup (toString ip)
    ++ (if prec = 0 then "" else "." ++ natPadLeft (toString fp) prec)

def MetricFormatter.format_number (value : ℚ) (precision : Nat) (use_suffix : Bool) : String :=
  if !use_suffix then ratFixedCommaRepr value precision
  else
    let abs_value := qAbs value
    let sign := if value < 0 then "-" else ""
    if qPowNat 10 12 ≤ abs_value then
      sign ++ ratFixedRepr (qDiv abs_value (qPowNat 10 12)) precision ++ "T"
    else if qPowNat 10 9 ≤ abs_value then
      sign ++ ratFixedRepr (qDiv abs_value (qPowNat 10 9)) precision ++ "B"
    else if qPowNat 10 6 ≤ abs_value then
      sign ++ ratFixedRepr (qDiv abs_value (qPowNat 10 6)) precision ++ "M"
    else if qPowNat 10 3 ≤ abs_value then
      sign ++ ratFixedRepr (qDiv abs_value (qPowNat 10 3)) precision ++ "K"
    else sign ++ ratFixedRepr abs_value precision

/-- Fixture data for closed witness statements. -/
def wResA : BenchmarkResult :=
  { name := "x", metric_type := "ms", value := .fin 10, metadata := Metadata.empty }

def wResB : BenchmarkResult :=
  { name := "x", metric_type := "ms", value := .fin 8, metadata := Metadata.empty }

def wSuiteA : BenchmarkSuite := { name := "A", results := [wResA], config := Metadata.empty }

def wSuiteB : BenchmarkSuite := { name := "B", results := [wResB], config := Metadata.empty }

/-- Fixture: an ms result carrying a runs metadata list with zero mean,
the input on which the timing-variance heuristic divides by zero. -/
def wResRuns : BenchmarkResult :=
  { name := "x", metric_type := "ms", value := .fin 10,
    metadata := { matrix_size := none, matrix_dims := none,
                  runs := some [.fin 0, .fin 0] } }

def wSuiteRuns : BenchmarkSuite :=
  { name := "A", results := [wResRuns], config := Metadata.empty }

/-! ## Bridge lemmas: the reducible rational helpers compute the standard
operations -/

theorem qAdd_eq (a b : ℚ) : qAdd a b = a + b := (Rat.add_def' a b).symm

theorem qSub_eq (a b : ℚ) : qSub a b = a - b := (Rat.sub_def' a b).symm

theorem qMul_eq (a b : ℚ) : qMul a b = a * b := by
  unfold qMul
  rw [Rat.mul_def, Rat.normalize_eq_mkRat]

theorem qNeg_eq (a : ℚ) : qNeg a = -a := by
  unfold qNeg
  rw [← Rat.neg_mkRat, Rat.mkRat_self]

theorem qInv_eq (a : ℚ) : qInv a = a⁻¹ := by
  unfold qInv
  have hinv : a⁻¹ = Rat.divInt (a.den : ℤ) a.num := Rat.inv_def a
  rcases Int.lt_or_le a.num 0 with h | h
  · rw [if_pos h, hinv]
    obtain ⟨m, hm⟩ : ∃ m : ℕ, a.num = -(m : ℤ) :=
      ⟨a.num.natAbs, by
        rw [← Int.natAbs_neg]
        exact (Int.natAbs_of_nonneg (Int.neg_nonneg.mpr (Int.le_of_lt h))).symm ▸ (by omega)⟩
    rw [hm, Rat.divInt_neg', Rat.divInt_ofNat, Int.natAbs_neg, Int.natAbs_ofNat]
  · rw [if_neg (Int.not_lt.mpr h), hinv]
    conv_rhs => rw [← Int.natAbs_of_nonneg h]
    rw [Rat.divInt_ofNat]

theorem qDiv_eq (a b : ℚ) : qDiv a b = a / b := by
  unfold qDiv
  rw [qMul_eq, qInv_eq, div_eq_mul_inv]

theorem qOfNat_eq (n : ℕ) : qOfNat n = (n : ℚ) := by
  unfold qOfNat
  rw [Rat.mkRat_one]
  push_cast
  rfl

theorem qOfInt_eq (n : ℤ) : qOfInt n = (n : ℚ) := by
  unfold qOfInt
  rw [Rat.mkRat_one]

theorem qAbs_eq (a : ℚ) : qAbs a = |a| := by
  unfold qAbs
  rcases Int.lt_or_le a.num 0 with h | h
  · have ha : a < 0 := by
      have := Rat.num_nonneg (q := a)
      by_contra hc
      push_neg at hc
      exact absurd (this.mpr hc) (Int.not_le.mpr h)
    rw [if_pos h, qNeg_eq, abs_of_neg ha]
  · have ha : 0 ≤ a := (Rat.num_nonneg (q := a)).mp h
    rw [if_neg (Int.not_lt.mpr h), abs_of_nonneg ha]

theorem qFloor_eq (a : ℚ) : qFloor a = ⌊a⌋ := (Rat.floor_def).symm

theorem qPowNat_eq (a : ℚ) : ∀ n : ℕ, qPowNat a n = a ^ n
  | 0 => by simp [qPowNat]
  | n + 1 => by rw [qPowNat, qMul_eq, qPowNat_eq a n, pow_succ]

theorem qPowInt_eq (a : ℚ) : ∀ z : ℤ, qPowInt a z = a ^ z
  | .ofNat n => by
    rw [qPowInt, qPowNat_eq, Int.ofNat_eq_coe, zpow_natCast]
  | .negSucc n => by
    rw [qPowInt, qInv_eq, qPowNat_eq, zpow_negSucc]

/-! ## Reduction lemmas for the float model on finite values -/

theorem pyLt_fin (a b : ℚ) : pyLt (.fin a) (.fin b) = decide (a < b) := rfl

theorem pyEq_fin (a b : ℚ) : pyEq (.fin a) (.fin b) = decide (a = b) := rfl

theorem pyLe_fin (a b : ℚ) : pyLe (.fin a) (.fin b) = decide (a ≤ b) := by
  simp only [pyLe, pyLt_fin, pyEq_fin]
  rcases lt_or_le a b with h | h
  · simp [h, le_of_lt h]
  · rcases eq_or_lt_of_le h with h' | h'
    · simp [h'.symm]
    · simp [not_lt.mpr (le_of_lt h'), ne_of_gt h', not_le.mpr h']

theorem pyAdd_fin (a b : ℚ) : pyAdd (.fin a) (.fin b) = .fin (a + b) := by
  simp [pyAdd, qAdd_eq]

theorem pyNeg_fin (a : ℚ) : pyNeg (.fin a) = .fin (-a) := by
  simp [pyNeg, qNeg_eq]

theorem pySub_fin (a b : ℚ) : pySub (.fin a) (.fin b) = .fin (a - b) := by
  simp [pySub, pyNeg_fin, pyAdd_fin, sub_eq_add_neg]

theorem pyMul_fin (a b : ℚ) : pyMul (.fin a) (.fin b) = .fin (a * b) := by
  simp [pyMul, qMul_eq]

theorem pyDivF_fin (a b : ℚ) : pyDivF (.fin a) (.fin b) = .fin (a / b) := by
  simp [pyDivF, qDiv_eq]

theorem pyNe_ne_zero {x : PyVal} (h : pyNe x (.fin 0) = true) : x ≠ .fin 0 := by
  intro he
  subst he
  simp [pyNe, pyEq] at h

theorem pyDiv_ok {a b : PyVal} (h : b ≠ .fin 0) : pyDiv a b = .ok (pyDivF a b) := by
  unfold pyDiv
  rw [if_neg h]

theorem pyLt_pos_ne_zero {x : PyVal} (h : pyLt (.fin 0) x = true) : x ≠ .fin 0 := by
  intro he
  subst he
  simp [pyLt] at h

/-! ## Totality and shape lemmas for the analyzer -/

theorem except_ok_bind {ε α β : Type} (a : α) (f : α → Except ε β) :
    (Except.ok a >>= f) = f a := rfl

theorem calculate_metrics_ok (psqrt : PyVal → PyVal) (values : List PyVal) (h : values ≠ []) :
    ∃ m, PerformanceAnalyzer.calculate_metrics psqrt values = .ok m := by
  unfold PerformanceAnalyzer.calculate_metrics
  rw [if_neg h]
  cases hm : pyNe (pyMean values) (.fin 0)
  · exact ⟨_, by simp only [hm, Bool.false_eq_true, if_false, except_ok_bind]; rfl⟩
  · exact ⟨_, by simp only [hm, if_true, pyDiv_ok (pyNe_ne_zero hm), except_ok_bind]; rfl⟩

theorem except_pure {ε α : Type} (a : α) : (pure a : Except ε α) = .ok a := rfl

theorem compare_results_ok (b c : BenchmarkResult) (h : b.metric_type = c.metric_type) :
    ∃ res, PerformanceAnalyzer.compare_results b c = .ok res ∧
      res.baseline_name = b.name ∧ res.comparison_name = c.name ∧
      res.metric_type = b.metric_type ∧
      res.baseline_value = b.value ∧ res.comparison_value = c.value := by
  unfold PerformanceAnalyzer.compare_results
  rw [if_neg (fun hne => hne h)]
  dsimp only
  cases hb : pyNe b.value (.fin 0)
  · simp only [hb, Bool.false_eq_true, if_false, except_pure, except_ok_bind]
    cases ht : isTimingMetric b.metric_type
    · simp only [ht, Bool.false_eq_true, if_false, hb, except_pure, except_ok_bind]
      exact ⟨_, rfl, rfl, rfl, rfl, rfl, rfl⟩
    · simp only [ht, if_true]
      cases hc : pyNe c.value (.fin 0)
      · simp only [hc, Bool.false_eq_true, if_false, except_pure, except_ok_bind]
        exact ⟨_, rfl, rfl, rfl, rfl, rfl, rfl⟩
      · simp only [hc, if_true, pyDiv_ok (pyNe_ne_zero hc), except_ok_bind]
        exact ⟨_, rfl, rfl, rfl, rfl, rfl, rfl⟩
  · simp only [hb, if_true, pyDiv_ok (pyNe_ne_zero hb), except_ok_bind, except_pure]
    cases ht : isTimingMetric b.metric_type
    · simp only [ht, Bool.false_eq_true, if_false, hb, if_true,
        pyDiv_ok (pyNe_ne_zero hb), except_ok_bind]
      exact ⟨_, rfl, rfl, rfl, rfl, rfl, rfl⟩
    · simp only [ht, if_true]
      cases hc : pyNe c.value (.fin 0)
      · simp only [hc, Bool.false_eq_true, if_false, except_pure, except_ok_bind]
        exact ⟨_, rfl, rfl, rfl, rfl, rfl, rfl⟩
      · simp only [hc, if_true, pyDiv_ok (pyNe_ne_zero hc), except_ok_bind]
        exact ⟨_, rfl, rfl, rfl, rfl, rfl, rfl⟩

theorem gpuSpeedups_ok : ∀ l : List (BenchmarkResult × BenchmarkResult),
    ∃ s, gpuSpeedups l = .ok s
  | [] => ⟨[], rfl⟩
  | p :: rest => by
    obtain ⟨s, hs⟩ := gpuSpeedups_ok rest
    unfold gpuSpeedups
    cases hp : pyLt (.fin 0) p.2.value
    · exact ⟨s, by simp only [hp, Bool.false_eq_true, if_false, hs]⟩
    · exact ⟨pyDivF p.1.value p.2.value :: s,
        by simp only [hp, if_true, pyDiv_ok (pyLt_pos_ne_zero hp), except_ok_bind, hs,
          except_ok_bind, except_pure]⟩

theorem gpuUtilizationCheck_ok (suite : BenchmarkSuite) :
    ∃ g, gpuUtilizationCheck suite = .ok g := by
  unfold gpuUtilizationCheck
  dsimp only
  split
  · obtain ⟨s, hs⟩ := gpuSpeedups_ok _
    rw [hs, except_ok_bind]
    split
    · split
      · exact ⟨_, rfl⟩
      · exact ⟨_, rfl⟩
    · exact ⟨_, rfl⟩
  · exact ⟨_, rfl⟩

theorem timingVarianceCheck_fold_none (psqrt : PyVal → PyVal) :
    ∀ (l : List BenchmarkResult) (acc : List Bottleneck),
      (∀ r ∈ l, r.metadata.runs = none) →
      List.foldlM (timingVarianceStep psqrt) acc l = .ok acc
  | [], acc, _ => rfl
  | r :: rest, acc, h => by
    have hr : r.metadata.runs = none := h r (List.mem_cons_self r rest)
    have ih := timingVarianceCheck_fold_none psqrt rest acc
      (fun x hx => h x (List.mem_cons_of_mem r hx))
    simp only [List.foldlM, timingVarianceStep, hr]
    exact ih

theorem timingVarianceCheck_none (psqrt : PyVal → PyVal) (suite : BenchmarkSuite)
    (h : ∀ r ∈ suite.results, r.metadata.runs = none) :
    timingVarianceCheck psqrt suite = .ok [] := by
  unfold timingVarianceCheck
  exact timingVarianceCheck_fold_none psqrt _ []
    (fun r hr => h r (List.mem_of_mem_filter hr))

theorem identify_bottlenecks_ok_of_no_runs (psqrt : PyVal → PyVal) (suite : BenchmarkSuite)
    (h : ∀ r ∈ suite.results, r.metadata.runs = none) :
    ∃ bs, PerformanceAnalyzer.identify_bottlenecks psqrt suite = .ok bs := by
  unfold PerformanceAnalyzer.identify_bottlenecks
  obtain ⟨g, hg⟩ := gpuUtilizationCheck_ok suite
  rw [hg, except_ok_bind, timingVarianceCheck_none psqrt suite h, except_ok_bind]
  exact ⟨_, rfl⟩

theorem metricsForTypes_ok (psqrt : PyVal → PyVal) (suite : BenchmarkSuite) :
    ∀ mts : List String, ∃ ms, metricsForTypes psqrt suite mts = .ok ms
  | [] => ⟨[], rfl⟩
  | mt :: rest => by
    obtain ⟨ms, hms⟩ := metricsForTypes_ok psqrt suite rest
    unfold metricsForTypes
    cases hv : ((suite.results.filter (fun r => r.metric_type == mt)).map
        (fun r => r.value)).isEmpty
    · have hne : (suite.results.filter (fun r => r.metric_type == mt)).map
          (fun r => r.value) ≠ [] := by
        intro he
        rw [he] at hv
        simp at hv
      obtain ⟨m, hm⟩ := calculate_metrics_ok psqrt _ hne
      exact ⟨(mt, m) :: ms,
        by simp only [hv, Bool.false_eq_true, if_false, hm, except_ok_bind, hms,
          except_ok_bind, except_pure]⟩
    · exact ⟨ms, by simp only [hv, if_true, hms]⟩

/-! ## Sorting and membership lemmas for bottleneck lists -/

theorem impactSortInsert_perm (a : Bottleneck) :
    ∀ l : List Bottleneck, List.Perm (impactSortInsert a l) (a :: l)
  | [] => List.Perm.refl _
  | b :: l => by
    unfold impactSortInsert
    split
    · exact List.Perm.refl _
    · exact ((impactSortInsert_perm a l).cons b).trans (List.Perm.swap a b l)

theorem impactSort_perm : ∀ l : List Bottleneck, List.Perm (impactSort l) l
  | [] => List.Perm.refl _
  | a :: l => by
    unfold impactSort
    exact (impactSortInsert_perm a (impactSort l)).trans ((impactSort_perm l).cons a)

theorem mem_impactSort {b : Bottleneck} {l : List Bottleneck} : b ∈ impactSort l ↔ b ∈ l :=
  (impactSort_perm l).mem_iff

theorem memoryBandwidthCheck_fold (l : List BenchmarkResult) :
    ∀ acc : List Bottleneck,
      l.foldl (fun acc r => acc ++ bandwidthCheckOne r) acc
        = acc ++ l.foldl (fun acc r => acc ++ bandwidthCheckOne r) [] := by
  induction l with
  | nil => intro acc; simp
  | cons r rest ih =>
    intro acc
    simp only [List.foldl_cons]
    rw [ih (acc ++ bandwidthCheckOne r), ih (List.nil ++ bandwidthCheckOne r)]
    simp

theorem mem_memoryBandwidthCheck {suite : BenchmarkSuite} {r : BenchmarkResult} {b : Bottleneck}
    (hr : r ∈ suite.results) (hb : containsStr r.metric_type "GB/s" = true)
    (hmem : b ∈ bandwidthCheckOne r) : b ∈ memoryBandwidthCheck suite := by
  unfold memoryBandwidthCheck
  have hrf : r ∈ suite.results.filter (fun x => containsStr x.metric_type "GB/s") :=
    List.mem_filter.mpr ⟨hr, hb⟩
  revert hrf
  generalize suite.results.filter (fun x => containsStr x.metric_type "GB/s") = l
  induction l with
  | nil => intro hx; cases hx
  | cons x rest ih =>
    intro hx
    simp only [List.foldl_cons]
    rw [memoryBandwidthCheck_fold, List.nil_append]
    rcases List.mem_cons.mp hx with he | hx2
    · subst he
      exact List.mem_append.mpr (Or.inl hmem)
    · exact List.mem_append.mpr (Or.inr (ih hx2))

theorem identify_bottlenecks_decomp {psqrt : PyVal → PyVal} {suite : BenchmarkSuite}
    {bs : List Bottleneck}
    (h : PerformanceAnalyzer.identify_bottlenecks psqrt suite = .ok bs) :
    ∃ g v, gpuUtilizationCheck suite = .ok g ∧ timingVarianceCheck psqrt suite = .ok v ∧
      bs = impactSort (g ++ v ++ memoryBandwidthCheck suite) := by
  unfold PerformanceAnalyzer.identify_bottlenecks at h
  cases hg : gpuUtilizationCheck suite with
  | error e => rw [hg] at h; exact absurd h (by simp [Bind.bind, Except.bind])
  | ok g =>
    rw [hg, except_ok_bind] at h
    cases hv : timingVarianceCheck psqrt suite with
    | error e => rw [hv] at h; exact absurd h (by simp [Bind.bind, Except.bind])
    | ok v =>
      rw [hv, except_ok_bind] at h
      simp only [except_pure] at h
      cases h
      exact ⟨g, v, rfl, rfl, rfl⟩

/-! ## Order lemmas for `calculate_metrics` on finite values -/

theorem qMinFold_le (x : ℚ) (xs : List ℚ) :
    ∀ y ∈ x :: xs, xs.foldl (fun a b => if b < a then b else a) x ≤ y := by
  induction xs generalizing x with
  | nil =>
    intro y hy
    rcases List.mem_cons.mp hy with rfl | h
    · exact le_refl y
    · cases h
  | cons z zs ih =>
    intro y hy
    simp only [List.foldl_cons]
    have hx2x : (if z < x then z else x) ≤ x := by
      split
      · exact le_of_lt (by assumption)
      · exact le_refl x
    have hx2z : (if z < x then z else x) ≤ z := by
      split
      · exact le_refl z
      · exact le_of_not_lt (by assumption)
    rcases List.mem_cons.mp hy with rfl | h2
    · exact le_trans (ih _ _ (List.mem_cons_self _ _)) hx2x
    · rcases List.mem_cons.mp h2 with rfl | h3
      · exact le_trans (ih _ _ (List.mem_cons_self _ _)) hx2z
      · exact ih _ _ (List.mem_cons_of_mem _ h3)

theorem qMaxFold_ge (x : ℚ) (xs : List ℚ) :
    ∀ y ∈ x :: xs, y ≤ xs.foldl (fun a b => if a < b then b else a) x := by
  induction xs generalizing x with
  | nil =>
    intro y hy
    rcases List.mem_cons.mp hy with rfl | h
    · exact le_refl y
    · cases h
  | cons z zs ih =>
    intro y hy
    simp only [List.foldl_cons]
    have hx2x : x ≤ (if x < z then z else x) := by
      split
      · exact le_of_lt (by assumption)
      · exact le_refl x
    have hx2z : z ≤ (if x < z then z else x) := by
      split
      · exact le_refl z
      · exact le_of_not_lt (by assumption)
    rcases List.mem_cons.mp hy with rfl | h2
    · exact le_trans hx2x (ih _ _ (List.mem_cons_self _ _))
    · rcases List.mem_cons.mp h2 with rfl | h3
      · exact le_trans hx2z (ih _ _ (List.mem_cons_self _ _))
      · exact ih _ _ (List.mem_cons_of_mem _ h3)

theorem pyMinList_map_fin (x : ℚ) (xs : List ℚ) :
    pyMinList ((x :: xs).map PyVal.fin)
      = .fin (xs.foldl (fun a b => if b < a then b else a) x) := by
  induction xs generalizing x with
  | nil => rfl
  | cons z is ih =>
    have step : (if pyLt (.fin z) (.fin x) = true then PyVal.fin z else PyVal.fin x)
        = PyVal.fin (if z < x then z else x) := by
      rw [pyLt_fin]
      rcases lt_or_le z x with hzx | hzx
      · rw [if_pos (decide_eq_true hzx), if_pos hzx]
      · rw [if_neg (by simp [not_lt.mpr hzx]), if_neg (not_lt.mpr hzx)]
    have base := ih (if z < x then z else x)
    simp only [List.map_cons, pyMinList, List.foldl_cons] at base ⊢
    rw [step] at *
    exact base

theorem pyMaxList_map_fin (x : ℚ) (xs : List ℚ) :
    pyMaxList ((x :: xs).map PyVal.fin)
      = .fin (xs.foldl (fun a b => if a < b then b else a) x) := by
  induction xs generalizing x with
  | nil => rfl
  | cons z is ih =>
    have step : (if pyLt (.fin x) (.fin z) = true then PyVal.fin z else PyVal.fin x)
        = PyVal.fin (if x < z then z else x) := by
      rw [pyLt_fin]
      rcases lt_or_le x z with hzx | hzx
      · rw [if_pos (decide_eq_true hzx), if_pos hzx]
      · rw [if_neg (by simp [not_lt.mpr hzx]), if_neg (not_lt.mpr hzx)]
    have base := ih (if x < z then z else x)
    simp only [List.map_cons, pyMaxList, List.foldl_cons] at base ⊢
    rw [step] at *
    exact base

theorem pySortLe_fin (a b : ℚ) : pySortLe (.fin a) (.fin b) = decide (a ≤ b) := by
  simp only [pySortLe, pyLt_fin]
  rcases le_or_lt a b with h | h
  · simp [not_lt.mpr h, h]
  · simp [h, not_le.mpr h]

theorem pyOrderedInsert_map_fin (a : ℚ) : ∀ l : List ℚ,
    pyOrderedInsert (.fin a) (l.map PyVal.fin)
      = (List.orderedInsert (· ≤ ·) a l).map PyVal.fin
  | [] => rfl
  | b :: l => by
    simp only [List.map_cons, pyOrderedInsert, List.orderedInsert, pySortLe_fin]
    rcases le_or_lt a b with h | h
    · rw [if_pos (decide_eq_true h), if_pos h]
      simp
    · rw [if_neg (by simp [not_le.mpr h]), if_neg (not_le.mpr h)]
      simp only [List.map_cons, List.cons.injEq, true_and]
      exact pyOrderedInsert_map_fin a l

theorem pySorted_map_fin : ∀ l : List ℚ,
    pySorted (l.map PyVal.fin) = (List.insertionSort (· ≤ ·) l).map PyVal.fin
  | [] => rfl
  | a :: l => by
    simp only [List.map_cons, pySorted, List.insertionSort]
    rw [pySorted_map_fin l, pyOrderedInsert_map_fin]

theorem getD_map_fin : ∀ (l : List ℚ) (i : Nat),
    (l.map PyVal.fin).getD i (.fin 0) = .fin (l.getD i 0)
  | [], 0 => rfl
  | [], _ + 1 => rfl
  | _ :: _, 0 => rfl
  | _ :: l, i + 1 => getD_map_fin l i

theorem getD_mem_of_lt : ∀ (l : List ℚ) (i : Nat), i < l.length → l.getD i 0 ∈ l
  | [], i, h => absurd h (Nat.not_lt_zero i)
  | a :: l, 0, _ => List.mem_cons_self a l
  | a :: l, i + 1, h =>
    List.mem_cons_of_mem a (getD_mem_of_lt l i (Nat.lt_of_succ_lt_succ h))

theorem sorted_getD_mono {l : List ℚ} (hs : l.Sorted (· ≤ ·)) :
    ∀ {i j : Nat}, i ≤ j → j < l.length → l.getD i 0 ≤ l.getD j 0 := by
  induction l with
  | nil =>
    intro i j _ hj
    exact absurd hj (Nat.not_lt_zero j)
  | cons a l ih =>
    intro i j hij hj
    have hral : ∀ b ∈ l, a ≤ b := (List.sorted_cons.mp hs).1
    have htl : l.Sorted (· ≤ ·) := (List.sorted_cons.mp hs).2
    match i, j with
    | 0, 0 => exact le_refl _
    | 0, j + 1 =>
      have : l.getD j 0 ∈ l := getD_mem_of_lt l j (Nat.lt_of_succ_lt_succ hj)
      exact hral _ this
    | i + 1, j + 1 =>
      exact ih htl (Nat.le_of_succ_le_succ hij) (Nat.lt_of_succ_lt_succ hj)

theorem chain_min_p25 (x : ℚ) (xs : List ℚ) :
    pyLe (pyMinList ((x :: xs).map PyVal.fin))
      ((pySorted ((x :: xs).map PyVal.fin)).getD ((x :: xs).length * 25 / 100) (.fin 0))
      = true := by
  set s := List.insertionSort (· ≤ ·) (x :: xs) with hsdef
  have hperm := List.perm_insertionSort (· ≤ ·) (x :: xs)
  have hlen : s.length = (x :: xs).length := hperm.length_eq
  have hidx : (x :: xs).length * 25 / 100 < s.length := by
    rw [hlen]
    simp only [List.length_cons]
    omega
  rw [pySorted_map_fin, getD_map_fin, pyMinList_map_fin, pyLe_fin, decide_eq_true_eq]
  exact qMinFold_le x xs _ (hperm.mem_iff.mp (getD_mem_of_lt s _ hidx))

theorem chain_p75_max (x : ℚ) (xs : List ℚ) :
    pyLe ((pySorted ((x :: xs).map PyVal.fin)).getD ((x :: xs).length * 75 / 100) (.fin 0))
      (pyMaxList ((x :: xs).map PyVal.fin)) = true := by
  set s := List.insertionSort (· ≤ ·) (x :: xs) with hsdef
  have hperm := List.perm_insertionSort (· ≤ ·) (x :: xs)
  have hlen : s.length = (x :: xs).length := hperm.length_eq
  have hidx : (x :: xs).length * 75 / 100 < s.length := by
    rw [hlen]
    simp only [List.length_cons]
    omega
  rw [pySorted_map_fin, getD_map_fin, pyMaxList_map_fin, pyLe_fin, decide_eq_true_eq]
  exact qMaxFold_ge x xs _ (hperm.mem_iff.mp (getD_mem_of_lt s _ hidx))

theorem chain_p25_med (x : ℚ) (xs : List ℚ) :
    pyLe ((pySorted ((x :: xs).map PyVal.fin)).getD ((x :: xs).length * 25 / 100) (.fin 0))
      (pyMedian ((x :: xs).map PyVal.fin)) = true := by
  have hsort : (List.insertionSort (· ≤ ·) (x :: xs)).Sorted (· ≤ ·) :=
    List.sorted_insertionSort _ _
  have hperm := List.perm_insertionSort (· ≤ ·) (x :: xs)
  unfold pyMedian
  rw [pySorted_map_fin]
  simp only [List.length_map]
  rw [getD_map_fin]
  generalize hgen : List.insertionSort (· ≤ ·) (x :: xs) = s at hsort hperm ⊢
  have hlen : s.length = xs.length + 1 := by
    rw [hperm.length_eq]
    simp
  by_cases hodd : s.length % 2 = 1
  · rw [if_pos hodd, getD_map_fin, pyLe_fin, decide_eq_true_eq]
    apply sorted_getD_mono hsort
    · simp only [List.length_cons]
      omega
    · omega
  · rw [if_neg hodd, getD_map_fin, getD_map_fin, pyAdd_fin, pyDivF_fin, pyLe_fin,
      decide_eq_true_eq]
    have h1 : s.getD ((x :: xs).length * 25 / 100) 0 ≤ s.getD (s.length / 2 - 1) 0 := by
      apply sorted_getD_mono hsort
      · simp only [List.length_cons]
        omega
      · omega
    have h2 : s.getD (s.length / 2 - 1) 0 ≤ s.getD (s.length / 2) 0 := by
      apply sorted_getD_mono hsort
      · omega
      · omega
    linarith

theorem chain_med_p75 (x : ℚ) (xs : List ℚ) :
    pyLe (pyMedian ((x :: xs).map PyVal.fin))
      ((pySorted ((x :: xs).map PyVal.fin)).getD ((x :: xs).length * 75 / 100) (.fin 0))
      = true := by
  have hsort : (List.insertionSort (· ≤ ·) (x :: xs)).Sorted (· ≤ ·) :=
    List.sorted_insertionSort _ _
  have hperm := List.perm_insertionSort (· ≤ ·) (x :: xs)
  unfold pyMedian
  rw [pySorted_map_fin]
  simp only [List.length_map]
  rw [getD_map_fin]
  generalize hgen : List.insertionSort (· ≤ ·) (x :: xs) = s at hsort hperm ⊢
  have hlen : s.length = xs.length + 1 := by
    rw [hperm.length_eq]
    simp
  by_cases hodd : s.length % 2 = 1
  · rw [if_pos hodd, getD_map_fin, pyLe_fin, decide_eq_true_eq]
    apply sorted_getD_mono hsort
    · simp only [List.length_cons]
      omega
    · simp only [List.length_cons]
      omega
  · rw [if_neg hodd, getD_map_fin, getD_map_fin, pyAdd_fin, pyDivF_fin, pyLe_fin,
      decide_eq_true_eq]
    have h1 : s.getD (s.length / 2 - 1) 0 ≤ s.getD (s.length / 2) 0 := by
      apply sorted_getD_mono hsort
      · omega
      · omega
    have h2 : s.getD (s.length / 2) 0 ≤ s.getD ((x :: xs).length * 75 / 100) 0 := by
      apply sorted_getD_mono hsort
      · simp only [List.length_cons]
        omega
      · simp only [List.length_cons]
        omega
    linarith

/-! ## Claim theorems -/

/-- C1: the claim that every parser entry point is total is wrong on the
code: the key-value parser regex can capture the token "." (no digits),
and `float(".")` raises an uncaught ValueError; the dispatcher routes the
input "a: ." to the key-value parser, so the error escapes the factory
too.  This contradicts the never-fatal parse design the CSV and JSON
parsers implement, so it is a code bug rather than a spec error. -/
theorem parse_key_value_dot_raises :
    GenericBenchmarkParser.parse_key_value "a: ."
        = .error "ValueError: could not convert string to float" ∧
    BenchmarkParserFactory.parse "a: ." none
        = .error "ValueError: could not convert string to float" := by
  constructor
  · decide
  · decide

/-- C2 counterexample: the claim that every result entering a suite has a
finite value is false: parsing the CSV text "name,ms\nr,nan" produces a
suite whose single result has a NaN value, because Python float("nan")
succeeds and no filtering happens. -/
theorem csv_nan_enters_suite :
    ((GenericBenchmarkParser.parse_csv "name,ms\nr,nan").results.all
      (fun r => pyIsFinite r.value)) = false := by
  decide

/-- C2 amended: the parsers perform no finiteness filtering; a CSV cell nan
is parsed into a BenchmarkResult whose value is NaN and enters the suite
unchanged. -/
theorem csv_nan_parse_eval :
    GenericBenchmarkParser.parse_csv "name,ms\nr,nan"
      = { name := "CSV Benchmark Suite",
          results := [{ name := "r", metric_type := "ms", value := PyVal.nan,
                        metadata := Metadata.empty }],
          config := Metadata.empty } := by
  decide

/-- C5: parsing the four-line CUDA benchmark text yields exactly four
results in source order (CUDA GFLOPS, CUDA TFLOPS, CPU GFLOPS, execution
time), each tagged with matrix_dims 4096x4096 and matrix_size 4096, with
the exact numeric values from the text. -/
theorem cuda_parse_roundtrip :
    CUDABenchmarkParser.parse
        "Benchmarking 4096x4096 matrices...\nCUDA: 2939.45 GFLOPS (2.939 TFLOPS)\nCPU: 45.2 GFLOPS\nBest time: 46.76ms"
      = .ok { name := "CUDA Benchmark Suite",
              results := [
                { name := "CUDA Performance (4096x4096)", metric_type := "GFLOPS",
                  value := .fin (mkRat 293945 100),
                  metadata := ⟨some 4096, some "4096x4096", none⟩ },
                { name := "CUDA Performance (4096x4096)", metric_type := "TFLOPS",
                  value := .fin (mkRat 2939 1000),
                  metadata := ⟨some 4096, some "4096x4096", none⟩ },
                { name := "CPU Performance (4096x4096)", metric_type := "GFLOPS",
                  value := .fin (mkRat 452 10),
                  metadata := ⟨some 4096, some "4096x4096", none⟩ },
                { name := "Execution Time (4096x4096)", metric_type := "ms",
                  value := .fin (mkRat 4676 100),
                  metadata := ⟨some 4096, some "4096x4096", none⟩ }],
              config := ⟨some 4096, some "4096x4096", none⟩ } := by
  decide

/-- C7: on a suite with one CUDA GFLOPS result of 20 and one CPU GFLOPS
result of 10, identify_bottlenecks emits exactly one GPU-utilization
bottleneck with severity critical (average speedup 2 is below 5) and
impact 100 - 2/10*100 = 80, for any square-root model. -/
theorem gpu_bottleneck_critical (psqrt : PyVal → PyVal) :
    PerformanceAnalyzer.identify_bottlenecks psqrt
      { name := "Suite",
        results := [{ name := "CUDA", metric_type := "GFLOPS", value := .fin 20,
                      metadata := Metadata.empty },
                    { name := "CPU", metric_type := "GFLOPS", value := .fin 10,
                      metadata := Metadata.empty }],
        config := Metadata.empty }
      = .ok [{ component := "GPU Utilization", severity := "critical",
               description := "GPU speedup is only 2.0x over CPU (expected 10-100x)",
               impact := .fin 80, recommendations := gpu_recommendation_texts }] := rfl

/-- C8: calculate_metrics on the empty list fails with the empty-input
error, and succeeds on every non-empty list of values. -/
theorem calculate_metrics_empty_error (psqrt : PyVal → PyVal) (values : List PyVal) :
    PerformanceAnalyzer.calculate_metrics psqrt []
        = .error "Cannot calculate metrics for empty list" ∧
    (values ≠ [] → ∃ m, PerformanceAnalyzer.calculate_metrics psqrt values = .ok m) :=
  ⟨rfl, calculate_metrics_ok psqrt values⟩

theorem calculate_metrics_empty_error_witness :
    ([PyVal.fin 1] ≠ []) ∧
    (∃ m, PerformanceAnalyzer.calculate_metrics (fun v => v) [PyVal.fin 1] = .ok m) :=
  ⟨by decide, (calculate_metrics_empty_error (fun v => v) [PyVal.fin 1]).2 (by decide)⟩

/-- C9: with default precision and suffixes on, any value whose absolute
value is in [1e3, 1e6) renders as the 2-decimal string of abs(value)/1e3
followed by K with the sign preserved, any value below 1e3 renders plainly
with 2 decimals, and in particular 1500 gives "1.50K" and 999 gives
"999.00". -/
theorem format_number_thresholds (v : ℚ) :
    ((1000 ≤ |v| ∧ |v| < 10 ^ 6) →
      MetricFormatter.format_number v 2 true
        = (if v < 0 then "-" else "") ++ ratFixedRepr (|v| / 1000) 2 ++ "K") ∧
    (|v| < 1000 →
      MetricFormatter.format_number v 2 true
        = (if v < 0 then "-" else "") ++ ratFixedRepr |v| 2) ∧
    MetricFormatter.format_number 1500 2 true = "1.50K" ∧
    MetricFormatter.format_number 999 2 true = "999.00" := by
  refine ⟨?_, ?_, by decide, by decide⟩
  · rintro ⟨hlo, hhi⟩
    unfold MetricFormatter.format_number
    rw [if_neg (by simp)]
    have h12 : ¬ (qPowNat 10 12 ≤ qAbs v) := by
      rw [qPowNat_eq, qAbs_eq]
      intro hc
      norm_num at hc hhi
      linarith
    have h9 : ¬ (qPowNat 10 9 ≤ qAbs v) := by
      rw [qPowNat_eq, qAbs_eq]
      intro hc
      norm_num at hc hhi
      linarith
    have h6 : ¬ (qPowNat 10 6 ≤ qAbs v) := by
      rw [qPowNat_eq, qAbs_eq]
      intro hc
      norm_num at hc hhi
      linarith
    have h3 : qPowNat 10 3 ≤ qAbs v := by
      rw [qPowNat_eq, qAbs_eq]
      norm_num
      linarith
    rw [if_neg h12, if_neg h9, if_neg h6, if_pos h3, qDiv_eq, qAbs_eq, qPowNat_eq]
    norm_num
  · intro hsmall
    unfold MetricFormatter.format_number
    rw [if_neg (by simp)]
    have h12 : ¬ (qPowNat 10 12 ≤ qAbs v) := by
      rw [qPowNat_eq, qAbs_eq]
      intro hc
      norm_num at hc
      linarith
    have h9 : ¬ (qPowNat 10 9 ≤ qAbs v) := by
      rw [qPowNat_eq, qAbs_eq]
      intro hc
      norm_num at hc
      linarith
    have h6 : ¬ (qPowNat 10 6 ≤ qAbs v) := by
      rw [qPowNat_eq, qAbs_eq]
      intro hc
      norm_num at hc
      linarith
    have h3 : ¬ (qPowNat 10 3 ≤ qAbs v) := by
      rw [qPowNat_eq, qAbs_eq]
      intro hc
      norm_num at hc
      linarith
    rw [if_neg h12, if_neg h9, if_neg h6, if_neg h3, qAbs_eq]

theorem format_number_thresholds_witness :
    ((1000 ≤ |(1500 : ℚ)| ∧ |(1500 : ℚ)| < 10 ^ 6) ∧
      MetricFormatter.format_number 1500 2 true
        = (if (1500 : ℚ) < 0 then "-" else "") ++ ratFixedRepr (|(1500 : ℚ)| / 1000) 2 ++ "K") ∧
    (|(999 : ℚ)| < 1000 ∧
      MetricFormatter.format_number 999 2 true
        = (if (999 : ℚ) < 0 then "-" else "") ++ ratFixedRepr |(999 : ℚ)| 2) :=
  ⟨⟨by norm_num, (format_number_thresholds 1500).1 (by norm_num)⟩,
   ⟨by norm_num, (format_number_thresholds 999).2.1 (by norm_num)⟩⟩

/-- C3: for every non-empty list of (finite) float values, the metrics
satisfy min_val <= percentile_25 <= median <= percentile_75 <= max_val,
where the percentiles are the ascending-sorted values at the nearest-rank
indices floor(n*0.25) and floor(n*0.75) and the median is the standard
sample median (the trailing equalities pin the fields to exactly those
expressions). -/
theorem calculate_metrics_percentile_chain (psqrt : PyVal → PyVal) (l : List ℚ)
    (h : l ≠ []) :
    ∃ m, PerformanceAnalyzer.calculate_metrics psqrt (l.map PyVal.fin) = .ok m ∧
      pyLe m.min_val m.percentile_25 = true ∧
      pyLe m.percentile_25 m.median = true ∧
      pyLe m.median m.percentile_75 = true ∧
      pyLe m.percentile_75 m.max_val = true ∧
      m.min_val = pyMinList (l.map PyVal.fin) ∧
      m.max_val = pyMaxList (l.map PyVal.fin) ∧
      m.median = pyMedian (l.map PyVal.fin) ∧
      m.percentile_25 = (pySorted (l.map PyVal.fin)).getD (l.length * 25 / 100) (.fin 0) ∧
      m.percentile_75 = (pySorted (l.map PyVal.fin)).getD (l.length * 75 / 100) (.fin 0) := by
  obtain ⟨x, xs, rfl⟩ := List.exists_cons_of_ne_nil h
  have hvne : (x :: xs).map PyVal.fin ≠ [] := by simp
  unfold PerformanceAnalyzer.calculate_metrics
  rw [if_neg hvne]
  dsimp only
  simp only [List.length_map]
  cases hm : pyNe (pyMean ((x :: xs).map PyVal.fin)) (.fin 0)
  · simp only [Bool.false_eq_true, if_false, except_pure, except_ok_bind]
    exact ⟨_, rfl, chain_min_p25 x xs, chain_p25_med x xs, chain_med_p75 x xs,
      chain_p75_max x xs, rfl, rfl, rfl, rfl, rfl⟩
  · simp only [if_true, pyDiv_ok (pyNe_ne_zero hm), except_ok_bind, except_pure]
    exact ⟨_, rfl, chain_min_p25 x xs, chain_p25_med x xs, chain_med_p75 x xs,
      chain_p75_max x xs, rfl, rfl, rfl, rfl, rfl⟩

theorem calculate_metrics_percentile_chain_witness :
    (((3 : ℚ) :: [1, 2]) ≠ []) ∧
    (∃ m, PerformanceAnalyzer.calculate_metrics (fun v => v)
          (((3 : ℚ) :: [1, 2]).map PyVal.fin) = .ok m ∧
      pyLe m.min_val m.percentile_25 = true ∧
      pyLe m.percentile_25 m.median = true ∧
      pyLe m.median m.percentile_75 = true ∧
      pyLe m.percentile_75 m.max_val = true ∧
      m.min_val = pyMinList (((3 : ℚ) :: [1, 2]).map PyVal.fin) ∧
      m.max_val = pyMaxList (((3 : ℚ) :: [1, 2]).map PyVal.fin) ∧
      m.median = pyMedian (((3 : ℚ) :: [1, 2]).map PyVal.fin) ∧
      m.percentile_25 = (pySorted (((3 : ℚ) :: [1, 2]).map PyVal.fin)).getD
        (((3 : ℚ) :: [1, 2]).length * 25 / 100) (.fin 0) ∧
      m.percentile_75 = (pySorted (((3 : ℚ) :: [1, 2]).map PyVal.fin)).getD
        (((3 : ℚ) :: [1, 2]).length * 75 / 100) (.fin 0)) :=
  ⟨by decide, calculate_metrics_percentile_chain (fun v => v) ((3 : ℚ) :: [1, 2]) (by decide)⟩

theorem mkRat_21_20 : (mkRat 21 20 : ℚ) = 21 / 20 := by
  rw [Rat.mkRat_eq_div]
  norm_num

theorem mkRat_19_20 : (mkRat 19 20 : ℚ) = 19 / 20 := by
  rw [Rat.mkRat_eq_div]
  norm_num

theorem pyNe_fin (a b : ℚ) : pyNe (.fin a) (.fin b) = !(decide (a = b)) := rfl

/-- C4: for results of equal metric type with finite values, the
comparison classifies as timing exactly when the lowercased type contains
one of ms, seconds, s, time as a substring (hence GFLOPS and GB/s count as
timing), with speedup baseline/comparison (0 when comparison is 0),
improvement iff comparison < baseline and regression iff
comparison > baseline * 1.05 for timing, and the mirrored throughput rules
otherwise. -/
theorem compare_results_classification (b c : BenchmarkResult) (qb qc : ℚ)
    (hmt : b.metric_type = c.metric_type) (hb : b.value = .fin qb) (hc : c.value = .fin qc) :
    isTimingMetric "GFLOPS" = true ∧ isTimingMetric "GB/s" = true ∧
    ∃ res, PerformanceAnalyzer.compare_results b c = .ok res ∧
      res.speedup = (if isTimingMetric b.metric_type then
          (if qc = 0 then .fin 0 else .fin (qb / qc))
        else (if qb = 0 then .fin 0 else .fin (qc / qb))) ∧
      res.is_improvement = (if isTimingMetric b.metric_type then decide (qc < qb)
        else decide (qb < qc)) ∧
      res.is_regression = (if isTimingMetric b.metric_type then decide (qb * (21 / 20) < qc)
        else decide (qc < qb * (19 / 20))) := by
  refine ⟨by decide, by decide, ?_⟩
  unfold PerformanceAnalyzer.compare_results
  rw [if_neg (fun hne => hne hmt)]
  dsimp only
  rw [hb, hc]
  cases ht : isTimingMetric b.metric_type
  · simp only [ht, Bool.false_eq_true, if_false]
    by_cases h0b : qb = 0
    · have e : pyNe (PyVal.fin qb) (.fin 0) = false := by
        simp [pyNe_fin, h0b]
      simp only [e, Bool.false_eq_true, if_false]
      refine ⟨_, rfl, ?_, ?_, ?_⟩
      · simp [h0b]
      · simp [pyLt_fin]
      · simp [pyLt_fin, pyMul_fin, mkRat_19_20]
    · have e : pyNe (PyVal.fin qb) (.fin 0) = true := by
        simp [pyNe_fin, h0b]
      simp only [e, if_true, pyDiv_ok (pyNe_ne_zero e), except_ok_bind]
      refine ⟨_, rfl, ?_, ?_, ?_⟩
      · simp [pyDivF_fin, h0b]
      · simp [pyLt_fin]
      · simp [pyLt_fin, pyMul_fin, mkRat_19_20]
  · simp only [ht, if_true]
    by_cases h0b : qb = 0 <;> by_cases h0c : qc = 0
    · have eb : pyNe (PyVal.fin qb) (.fin 0) = false := by
        simp [pyNe_fin, h0b]
      have ec : pyNe (PyVal.fin qc) (.fin 0) = false := by
        simp [pyNe_fin, h0c]
      simp only [eb, ec, Bool.false_eq_true, if_false]
      refine ⟨_, rfl, ?_, ?_, ?_⟩
      · simp [h0c]
      · simp [pyLt_fin]
      · simp [pyLt_fin, pyMul_fin, mkRat_21_20]
    · have eb : pyNe (PyVal.fin qb) (.fin 0) = false := by
        simp [pyNe_fin, h0b]
      have ec : pyNe (PyVal.fin qc) (.fin 0) = true := by
        simp [pyNe_fin, h0c]
      simp only [eb, ec, Bool.false_eq_true, if_false, if_true,
        pyDiv_ok (pyNe_ne_zero ec), except_ok_bind]
      refine ⟨_, rfl, ?_, ?_, ?_⟩
      · simp [pyDivF_fin, h0c]
      · simp [pyLt_fin]
      · simp [pyLt_fin, pyMul_fin, mkRat_21_20]
    · have eb : pyNe (PyVal.fin qb) (.fin 0) = true := by
        simp [pyNe_fin, h0b]
      have ec : pyNe (PyVal.fin qc) (.fin 0) = false := by
        simp [pyNe_fin, h0c]
      simp only [eb, ec, Bool.false_eq_true, if_false, if_true,
        pyDiv_ok (pyNe_ne_zero eb), except_ok_bind]
      refine ⟨_, rfl, ?_, ?_, ?_⟩
      · simp [h0c]
      · simp [pyLt_fin]
      · simp [pyLt_fin, pyMul_fin, mkRat_21_20]
    · have eb : pyNe (PyVal.fin qb) (.fin 0) = true := by
        simp [pyNe_fin, h0b]
      have ec : pyNe (PyVal.fin qc) (.fin 0) = true := by
        simp [pyNe_fin, h0c]
      simp only [eb, ec, if_true, pyDiv_ok (pyNe_ne_zero eb), except_ok_bind,
        pyDiv_ok (pyNe_ne_zero ec)]
      refine ⟨_, rfl, ?_, ?_, ?_⟩
      · simp [pyDivF_fin, h0c]
      · simp [pyLt_fin]
      · simp [pyLt_fin, pyMul_fin, mkRat_21_20]

theorem compare_results_classification_witness :
    ((⟨"a", "GFLOPS", .fin 10, Metadata.empty⟩ : BenchmarkResult).metric_type
        = (⟨"a", "GFLOPS", .fin 8, Metadata.empty⟩ : BenchmarkResult).metric_type) ∧
    (isTimingMetric "GFLOPS" = true ∧ isTimingMetric "GB/s" = true ∧
     ∃ res, PerformanceAnalyzer.compare_results
          ⟨"a", "GFLOPS", .fin 10, Metadata.empty⟩ ⟨"a", "GFLOPS", .fin 8, Metadata.empty⟩
        = .ok res ∧
      res.speedup = (if isTimingMetric "GFLOPS" then
          (if (8 : ℚ) = 0 then .fin 0 else .fin (10 / 8))
        else (if (10 : ℚ) = 0 then .fin 0 else .fin (8 / 10))) ∧
      res.is_improvement = (if isTimingMetric "GFLOPS" then decide ((8 : ℚ) < 10)
        else decide ((10 : ℚ) < 8)) ∧
      res.is_regression = (if isTimingMetric "GFLOPS" then decide ((10 : ℚ) * (21 / 20) < 8)
        else decide ((8 : ℚ) < 10 * (19 / 20)))) :=
  ⟨rfl, compare_results_classification ⟨"a", "GFLOPS", .fin 10, Metadata.empty⟩
    ⟨"a", "GFLOPS", .fin 8, Metadata.empty⟩ 10 8 rfl rfl rfl⟩

/-- C10: for every GB/s result with value below 500 in a suite whose
bottleneck identification succeeds, the inner efficiency guard
(value/900*100 < 60) necessarily holds, the severity is high exactly when
value < 360, and the Memory Bandwidth bottleneck with impact
100 - value/900*100 is in the returned list. -/
theorem bandwidth_bottleneck_always_emitted (psqrt : PyVal → PyVal) (suite : BenchmarkSuite)
    (r : BenchmarkResult) (bs : List Bottleneck)
    (hr : r ∈ suite.results) (hgb : containsStr r.metric_type "GB/s" = true)
    (hv : pyLt r.value (.fin 500) = true)
    (hok : PerformanceAnalyzer.identify_bottlenecks psqrt suite = .ok bs) :
    pyLt (pyMul (pyDivF r.value (.fin 900)) (.fin 100)) (.fin 60) = true ∧
    pyLt (pyMul (pyDivF r.value (.fin 900)) (.fin 100)) (.fin 40) = pyLt r.value (.fin 360) ∧
    { component := "Memory Bandwidth",
      severity := if pyLt (pyMul (pyDivF r.value (.fin 900)) (.fin 100)) (.fin 40)
        then "high" else "medium",
      description := "Memory bandwidth at "
        ++ pyFixedRepr (pyMul (pyDivF r.value (.fin 900)) (.fin 100)) 1
        ++ "% of theoretical peak",
      impact := pySub (.fin 100) (pyMul (pyDivF r.value (.fin 900)) (.fin 100)),
      recommendations := bandwidth_recommendation_texts } ∈ bs := by
  have heff : pyLt (pyMul (pyDivF r.value (.fin 900)) (.fin 100)) (.fin 60) = true := by
    cases hval : r.value with
    | fin q =>
      rw [hval] at hv
      rw [pyLt_fin, decide_eq_true_eq] at hv
      rw [pyDivF_fin, pyMul_fin, pyLt_fin, decide_eq_true_eq]
      rw [div_mul_eq_mul_div, div_lt_iff₀ (by norm_num : (0:ℚ) < 900)]
      linarith
    | nan => rw [hval] at hv; simp [pyLt] at hv
    | inf => rw [hval] at hv; simp [pyLt] at hv
    | ninf => decide
  have hsev : pyLt (pyMul (pyDivF r.value (.fin 900)) (.fin 100)) (.fin 40)
      = pyLt r.value (.fin 360) := by
    cases hval : r.value with
    | fin q =>
      rw [pyDivF_fin, pyMul_fin, pyLt_fin, pyLt_fin]
      rw [decide_eq_decide]
      rw [div_mul_eq_mul_div, div_lt_iff₀ (by norm_num : (0:ℚ) < 900)]
      constructor
      · intro hlt; linarith
      · intro hlt; linarith
    | nan => decide
    | inf => decide
    | ninf => decide
  refine ⟨heff, hsev, ?_⟩
  obtain ⟨g, v, hg, hvar, hbs⟩ := identify_bottlenecks_decomp hok
  rw [hbs]
  apply mem_impactSort.mpr
  apply List.mem_append.mpr
  right
  apply mem_memoryBandwidthCheck hr hgb
  unfold bandwidthCheckOne
  rw [if_pos hv, if_pos heff]
  exact List.mem_singleton.mpr rfl

theorem bandwidth_bottleneck_always_emitted_witness :
    (({ name := "mem", metric_type := "GB/s", value := .fin 300,
        metadata := Metadata.empty } : BenchmarkResult)
      ∈ ({ name := "S",
           results := [{ name := "mem", metric_type := "GB/s", value := .fin 300,
                         metadata := Metadata.empty }],
           config := Metadata.empty } : BenchmarkSuite).results) ∧
    containsStr "GB/s" "GB/s" = true ∧
    pyLt (.fin 300) (.fin 500) = true ∧
    (PerformanceAnalyzer.identify_bottlenecks (fun v => v)
        { name := "S",
          results := [{ name := "mem", metric_type := "GB/s", value := .fin 300,
                        metadata := Metadata.empty }],
          config := Metadata.empty }
      = .ok [{ component := "Memory Bandwidth", severity := "high",
               description := "Memory bandwidth at 33.3% of theoretical peak",
               impact := .fin (mkRat 200 3),
               recommendations := bandwidth_recommendation_texts }]) ∧
    ({ component := "Memory Bandwidth",
       severity := if pyLt (pyMul (pyDivF (PyVal.fin 300) (.fin 900)) (.fin 100)) (.fin 40)
         then "high" else "medium",
       description := "Memory bandwidth at "
         ++ pyFixedRepr (pyMul (pyDivF (PyVal.fin 300) (.fin 900)) (.fin 100)) 1
         ++ "% of theoretical peak",
       impact := pySub (.fin 100) (pyMul (pyDivF (PyVal.fin 300) (.fin 900)) (.fin 100)),
       recommendations := bandwidth_recommendation_texts } : Bottleneck)
      ∈ [({ component := "Memory Bandwidth", severity := "high",
            description := "Memory bandwidth at 33.3% of theoretical peak",
            impact := .fin (mkRat 200 3),
            recommendations := bandwidth_recommendation_texts } : Bottleneck)] := by
  refine ⟨by decide, by decide, by decide, by decide, ?_⟩
  exact (bandwidth_bottleneck_always_emitted (fun v => v)
    { name := "S",
      results := [{ name := "mem", metric_type := "GB/s", value := .fin 300,
                    metadata := Metadata.empty }],
      config := Metadata.empty }
    { name := "mem", metric_type := "GB/s", value := .fin 300, metadata := Metadata.empty }
    [{ component := "Memory Bandwidth", severity := "high",
       description := "Memory bandwidth at 33.3% of theoretical peak",
       impact := .fin (mkRat 200 3),
       recommendations := bandwidth_recommendation_texts }]
    (by decide) (by decide) (by decide) (by decide)).2.2

/-- C6 counterexample: the original claim fails on the code: with an
analyzer of empty history and a suite whose single result has metric type
ms and runs metadata [0.0, 0.0], the very first analyze call produces no
report at all — the timing-variance heuristic computes
stdev(runs)/mean(runs) with a zero mean and the ZeroDivisionError
propagates out of analyze. -/
theorem analyze_runs_zero_mean_raises :
    wSuiteRuns.results = [wResRuns] ∧ wResRuns.metric_type = "ms" ∧
    wResRuns.metadata.runs = some [.fin 0, .fin 0] ∧
    PerformanceAnalyzer.analyze (fun v => v) [] wSuiteRuns
      = .error "ZeroDivisionError: float division by zero" := by
  decide

/-- C6 amended: the claim as stated is refuted by the counterexample
below (an ms result carrying runs metadata with zero mean makes analyze
raise, so no report exists); it holds once the results carry no runs
metadata.  Under that proviso: starting from empty history, two analyze
calls on singleton suites whose results share name and metric type
produce no comparisons in the first report, exactly one comparison in the
second whose baseline is the first value and comparison the second, and a
history that grows by exactly one suite per call with the analyzed suite
appended after comparisons are computed. -/
theorem analyze_two_calls (psqrt : PyVal → PyVal) (s1 s2 : BenchmarkSuite)
    (r1 r2 : BenchmarkResult)
    (h1 : s1.results = [r1]) (h2 : s2.results = [r2])
    (hn : r1.name = r2.name) (hm : r1.metric_type = r2.metric_type)
    (hr1 : r1.metadata.runs = none) (hr2 : r2.metadata.runs = none) :
    ∃ rep1 rep2 cc,
      PerformanceAnalyzer.analyze psqrt [] s1 = .ok (rep1, [s1]) ∧
      PerformanceAnalyzer.analyze psqrt [s1] s2 = .ok (rep2, [s1, s2]) ∧
      rep1.comparisons = [] ∧
      rep2.comparisons = [cc] ∧
      cc.baseline_name = r1.name ∧ cc.metric_type = r1.metric_type ∧
      cc.baseline_value = r1.value ∧ cc.comparison_value = r2.value := by
  obtain ⟨ms1, hms1⟩ := metricsForTypes_ok psqrt s1
    (firstDedup (s1.results.map (fun r => r.metric_type)))
  obtain ⟨bs1, hbs1⟩ := identify_bottlenecks_ok_of_no_runs psqrt s1 (by
    rw [h1]
    intro r hr
    rcases List.mem_singleton.mp hr with rfl
    exact hr1)
  obtain ⟨ms2, hms2⟩ := metricsForTypes_ok psqrt s2
    (firstDedup (s2.results.map (fun r => r.metric_type)))
  obtain ⟨bs2, hbs2⟩ := identify_bottlenecks_ok_of_no_runs psqrt s2 (by
    rw [h2]
    intro r hr
    rcases List.mem_singleton.mp hr with rfl
    exact hr2)
  obtain ⟨cc, hcmp, hcn, _, hcm, hcb, hcc⟩ := compare_results_ok r1 r2 hm
  have hget : s1.get_metric r2.name = some r1 := by
    unfold BenchmarkSuite.get_metric
    rw [h1]
    have : (r1.name == r2.name) = true := by
      rw [hn]
      exact beq_self_eq_true r2.name
    simp [List.find?, this]
  have hbc : buildComparisons s1 s2.results = .ok [cc] := by
    rw [h2]
    unfold buildComparisons
    rw [hget]
    dsimp only
    rw [if_pos hm, hcmp, except_ok_bind]
    rfl
  have ha1 : PerformanceAnalyzer.analyze psqrt [] s1
      = .ok (⟨s1.name, ms1, [], bs1,
          PerformanceAnalyzer.generate_recommendations s1 bs1,
          buildSummary s1 bs1 [], s1.results⟩, [s1]) := by
    unfold PerformanceAnalyzer.analyze
    rw [hms1, except_ok_bind, hbs1, except_ok_bind]
    rfl
  have ha2 : PerformanceAnalyzer.analyze psqrt [s1] s2
      = .ok (⟨s2.name, ms2, [cc], bs2,
          PerformanceAnalyzer.generate_recommendations s2 bs2,
          buildSummary s2 bs2 [cc], s2.results⟩, [s1, s2]) := by
    unfold PerformanceAnalyzer.analyze
    rw [hms2, except_ok_bind, hbs2, except_ok_bind]
    have hlast : ([s1] : List BenchmarkSuite).getLast? = some s1 := rfl
    rw [hlast]
    dsimp only
    rw [hbc, except_ok_bind]
    rfl
  exact ⟨_, _, cc, ha1, ha2, rfl, rfl, hcn, hcm, hcb, hcc⟩

theorem analyze_two_calls_witness :
    wSuiteA.results = [wResA] ∧ wSuiteB.results = [wResB] ∧
    wResA.name = wResB.name ∧ wResA.metric_type = wResB.metric_type ∧
    wResA.metadata.runs = none ∧ wResB.metadata.runs = none ∧
    (∃ rep1 rep2 cc,
      PerformanceAnalyzer.analyze (fun v => v) [] wSuiteA = .ok (rep1, [wSuiteA]) ∧
      PerformanceAnalyzer.analyze (fun v => v) [wSuiteA] wSuiteB
        = .ok (rep2, [wSuiteA, wSuiteB]) ∧
      rep1.comparisons = [] ∧
      rep2.comparisons = [cc] ∧
      cc.baseline_name = wResA.name ∧ cc.metric_type = wResA.metric_type ∧
      cc.baseline_value = wResA.value ∧ cc.comparison_value = wResB.value) :=
  ⟨rfl, rfl, rfl, rfl, rfl, rfl,
    analyze_two_calls (fun v => v) wSuiteA wSuiteB wResA wResB rfl rfl rfl rfl rfl rfl⟩

theorem gpu_bottleneck_critical_witness :
    PerformanceAnalyzer.identify_bottlenecks (fun v => v)
      { name := "Suite",
        results := [{ name := "CUDA", metric_type := "GFLOPS", value := .fin 20,
                      metadata := Metadata.empty },
                    { name := "CPU", metric_type := "GFLOPS", value := .fin 10,
                      metadata := Metadata.empty }],
        config := Metadata.empty }
      = .ok [{ component := "GPU Utilization", severity := "critical",
               description := "GPU speedup is only 2.0x over CPU (expected 10-100x)",
               impact := .fin 80, recommendations := gpu_recommendation_texts }] :=
  gpu_bottleneck_critical (fun v => v)
